import Mathlib

/-!
Verification of the provider routing layer of cursor-tools
(`src/providers/base.ts`): model-name resolution, token-budget model
switching, retry/backoff, response post-processing and the
web-search-capability predicates.

The TypeScript code is shallowly embedded: provider methods become pure
Lean functions, the JS `Set<string>` of available models becomes a
`List String` in insertion order, promises are collapsed to values, the
HTTP layer becomes an explicit `transport` argument producing the vendor
response, and thrown errors become `Except PErr`.  Functions imported
from files outside `providers/base.ts` (`getSimilarModels`,
`stringSimilarity`, `chunkMessage`) are taken as parameters.
-/

set_option maxHeartbeats 1000000
set_option maxRecDepth 8000

namespace CursorTools

/-- Characterwise prefix test on `List Char`. -/
def isPreChars : List Char → List Char → Bool
  | [], _ => true
  | _ :: _, [] => false
  | a :: as, b :: bs => a = b && isPreChars as bs

/-- Substring occurrence test: JS `hay.includes(needle)` on exploded strings. -/
def subOccurs (needle : List Char) : List Char → Bool
  | [] => needle.isEmpty
  | c :: rest => isPreChars needle (c :: rest) || subOccurs needle rest

/-- JS `hay.includes(needle)` for strings. -/
def strContains (hay needle : String) : Bool :=
  subOccurs needle.toList hay.toList

/-- JS `s.startsWith(pre)`. -/
def jsStartsWith (s pre : String) : Bool :=
  isPreChars pre.toList s.toList

/-- JS `s.endsWith(post)`. -/
def jsEndsWith (s post : String) : Bool :=
  isPreChars post.toList.reverse s.toList.reverse

/-- JS `s.includes(c)` for a single character. -/
def containsChar (s : String) (c : Char) : Bool :=
  s.toList.contains c

/-- Split a char list at every occurrence of `c` (JS `split`). -/
def splitOnChar (c : Char) : List Char → List (List Char)
  | [] => [[]]
  | x :: xs =>
    let r := splitOnChar c xs
    if x = c then [] :: r
    else
      match r with
      | [] => [[x]]
      | y :: ys => (x :: y) :: ys

/-- JS `s.split('/')`. -/
def jsSplitSlash (s : String) : List String :=
  (splitOnChar '/' s.toList).map String.mk

/-- JS `s.toLowerCase()` (ASCII, which covers every use in `base.ts`). -/
def jsToLower (s : String) : String :=
  String.mk (s.toList.map Char.toLower)

/-- Whitespace for `trim` (space, tab, newline, carriage return). -/
def isWsChar (c : Char) : Bool :=
  c = ' ' || c = '\t' || c = '\n' || c = '\r'

/-- JS `s.trim()`. -/
def jsTrim (s : String) : String :=
  String.mk (((s.toList.dropWhile isWsChar).reverse.dropWhile isWsChar).reverse)

/-- Remove the first occurrence of `pat` from a char list, if present. -/
def removeFirstChars (pat : List Char) : List Char → Option (List Char)
  | [] => none
  | c :: rest =>
    if isPreChars pat (c :: rest) then some ((c :: rest).drop pat.length)
    else (removeFirstChars pat rest).map (c :: ·)

/-- JS `s.replace(pat, '')`: delete the first occurrence of `pat` in `s`. -/
def jsReplaceEmpty (s pat : String) : String :=
  match removeFirstChars pat.toList s.toList with
  | some l => String.mk l
  | none => s

/-- `this.constructor.name.replace('Provider', '')` from `base.ts`. -/
def providerDisplayName (ctor : String) : String :=
  jsReplaceEmpty ctor "Provider"

/-- Total lexicographic order on strings by code points, standing in for the
default-locale `localeCompare` used by the descending sorts in `base.ts`. -/
def leChars : List Char → List Char → Bool
  | [], _ => true
  | _ :: _, [] => false
  | a :: as, b :: bs => if a < b then true else if b < a then false else leChars as bs

/-- String comparison used for the model-list sorts. -/
def strLe (a b : String) : Bool := leChars a.toList b.toList

/-- Insert a string into a descending-sorted list, keeping it descending. -/
def insertDesc (x : String) : List String → List String
  | [] => [x]
  | y :: ys => if strLe y x then x :: y :: ys else y :: insertDesc x ys

/-- `array.sort((a, b) => b.localeCompare(a))`: sort in descending order.
Because the order is total and antisymmetric on strings, the descending
permutation is unique, so insertion sort reproduces the JS sort exactly. -/
def sortDesc : List String → List String
  | [] => []
  | x :: xs => insertDesc x (sortDesc xs)

/-- Errors thrown by the provider layer (`src/errors.ts` is referenced but not
part of the sources; constructors mirror the classes used in `base.ts`). -/
inductive PErr where
  | providerError (msg : String)
  | networkError (msg : String)
  | modelNotFound (msg : String)
  | apiKeyMissing (provider : String)
  | genericError (msg : String)
  deriving Repr, DecidableEq

/-- Modelled from the spec: the error-class hierarchy of `src/errors.ts`,
which is not among the sources.  `ProviderError` is the base provider error
class and `NetworkError`, `ModelNotFoundError` and `ApiKeyMissingError` are
subclasses of it, as required for the retry/backoff behaviour the spec
describes (a 429 `NetworkError` must survive the `instanceof ProviderError`
rethrow in the Google providers to stay retryable).  Plain `Error` values are
not provider errors. -/
def instanceOfProviderError : PErr → Bool
  | .providerError _ => true
  | .networkError _ => true
  | .modelNotFound _ => true
  | .apiKeyMissing _ => true
  | .genericError _ => false

/-- `error instanceof NetworkError`. -/
def instanceOfNetworkError : PErr → Bool
  | .networkError _ => true
  | _ => false

instance {ε α : Type} [DecidableEq ε] [DecidableEq α] : DecidableEq (Except ε α) := fun x y =>
  match x, y with
  | .ok a, .ok b =>
    if h : a = b then .isTrue (by rw [h]) else .isFalse (fun he => by cases he; exact h rfl)
  | .error a, .error b =>
    if h : a = b then .isTrue (by rw [h]) else .isFalse (fun he => by cases he; exact h rfl)
  | .ok _, .error _ => .isFalse (fun he => by cases he)
  | .error _, .ok _ => .isFalse (fun he => by cases he)

/-- The `catch` blocks of the provider `executePrompt` methods: rethrow
provider errors, wrap anything else into a `NetworkError` with message
`wrapMsg`. -/
def jsCatchWrap (r : Except PErr α) (wrapMsg : String) : Except PErr α :=
  match r with
  | .ok v => .ok v
  | .error e =>
    if instanceOfProviderError e then .error e
    else .error (.networkError wrapMsg)

/-- `ModelOptions` from `base.ts`.  Optional JS fields become `Option`. -/
structure ModelOptions where
  model : String
  maxTokens : Nat
  systemPrompt : String
  tokenCount : Option Nat
  webSearch : Option Bool
  timeout : Option Nat
  debug : Option Bool
  deriving Repr, DecidableEq

/-- JS truthiness of the optional numeric field `options?.tokenCount`. -/
def tcTruthy : Option Nat → Bool
  | none => false
  | some n => n ≠ 0

/-- `BaseProvider.getSystemPrompt`: `options?.systemPrompt || default`. -/
def getSystemPrompt (o : ModelOptions) : String :=
  if o.systemPrompt = "" then
    "You are a helpful assistant. Provide clear and concise responses."
  else o.systemPrompt

/-- The `-exp` / `-exp-*` suffix recognizer: the regex
`^(.*?)(?:-exp(?:-.*)?$)` of `getModel`, returning the (shortest) stem before
the first `-exp` that is followed by nothing or by a further `-`-segment. -/
def expStemChars : List Char → Option (List Char)
  | [] => none
  | c :: rest =>
    if c = '-' && rest.take 3 == ['e', 'x', 'p'] &&
        (match (rest.drop 3).head? with
         | none => true
         | some d => d = '-') then
      some []
    else (expStemChars rest).map (c :: ·)

/-- String form of `expStemChars`. -/
def expStem (s : String) : Option String :=
  (expStemChars s.toList).map String.mk

/-- Error message of `getModel` when similar models were found
(`base.ts` lines 174-180). -/
def notFoundSimilarMsg (ctor model : String) (sims : List String) : String :=
  "Model '" ++ model ++ "' not found in " ++ providerDisplayName ctor ++ ".\n\n" ++
  "You requested: " ++ model ++ "\n" ++
  "Similar available models:\n" ++
  String.intercalate "\n" (sims.map (fun m => "- " ++ m)) ++ "\n\n" ++
  "Use --model with one of the above models." ++
  (if ctor = "ModelBoxProvider" then
    " Note: ModelBox requires provider prefixes (e.g., 'openai/gpt-4' instead of just 'gpt-4')."
   else "")

/-- Error message of `getModel` when no similar models were found
(`base.ts` lines 183-192). -/
def notFoundRecentMsg (ctor model : String) (recents : List String) : String :=
  "Model '" ++ model ++ "' not found in " ++ providerDisplayName ctor ++ ".\n\n" ++
  "You requested: " ++ model ++ "\n" ++
  "Recent available models:\n" ++
  String.intercalate "\n" (recents.map (fun m => "- " ++ m)) ++ "\n\n" ++
  "Use --model with one of the above models."

/-- `BaseProvider.getModel` (`base.ts` lines 93-193).  `similar` is the
imported `getSimilarModels`; `ctor` is `this.constructor.name`; `avail` is the
`availableModels` set (`none` when the provider never initializes it), in
insertion order. -/
def getModel (similar : String → List String → List String) (ctor : String)
    (avail : Option (List String)) (options : Option ModelOptions) :
    Except PErr String :=
  match options with
  | none => .error (.modelNotFound (providerDisplayName ctor))
  | some o =>
    if o.model = "" then .error (.modelNotFound (providerDisplayName ctor))
    else
      match avail with
      | none => .ok o.model
      | some av =>
        let model := o.model
        if av.contains model then .ok model
        else
          let exactNS : Option String :=
            if containsChar model '/' then none
            else av.find? (fun m =>
              (jsSplitSlash m).length == 2 && (jsSplitSlash m)[1]? == some model)
          match exactNS with
          | some m => .ok m
          | none =>
            match (sortDesc (av.filter (fun m => jsStartsWith m model))).getLast? with
            | some r => .ok r
            | none =>
              let latestRes : Option String :=
                if jsEndsWith model "-latest" then
                  (sortDesc (av.filter (fun m => jsStartsWith m (model.dropRight 7)))).getLast?
                else none
              match latestRes with
              | some r => .ok r
              | none =>
                let expRes : Option String :=
                  match expStem model with
                  | some stem =>
                    (sortDesc (av.filter (fun m => jsStartsWith m stem))).getLast?
                  | none => none
                match expRes with
                | some r => .ok r
                | none =>
                  let sims := similar model av
                  if sims ≠ [] then
                    .error (.modelNotFound (notFoundSimilarMsg ctor model sims))
                  else
                    .error (.modelNotFound (notFoundRecentMsg ctor model (sortDesc av)))

/-! Stage-by-stage description of the fuzzy resolution, following the claim:
exact membership, exact match inside a provider namespace, smallest prefix
match, smallest match after dropping `-latest`, smallest match after dropping
an `-exp`/`-exp-...` suffix.  "Smallest" is the last element after the
descending sort, as the claim itself spells out. -/

/-- Smallest available model satisfying `p` (last after descending sort). -/
def smallestWith (avail : List String) (p : String → Bool) : Option String :=
  (sortDesc (avail.filter p)).getLast?

/-- Resolution stage 1: exact membership. -/
def stageExact (avail : List String) (name : String) : Option String :=
  if avail.contains name then some name else none

/-- Resolution stage 2: for an unqualified name, an available entry
`pfx/name` whose second component is exactly `name`. -/
def stageNamespaced (avail : List String) (name : String) : Option String :=
  if containsChar name '/' then none
  else avail.find? (fun m =>
    (jsSplitSlash m).length == 2 && (jsSplitSlash m)[1]? == some name)

/-- Resolution stage 3: smallest available model with `name` as a prefix. -/
def stageStarts (avail : List String) (name : String) : Option String :=
  smallestWith avail (fun m => jsStartsWith m name)

/-- Resolution stage 4: drop a trailing `-latest` and take the smallest
available model extending the rest. -/
def stageLatest (avail : List String) (name : String) : Option String :=
  if jsEndsWith name "-latest" then
    smallestWith avail (fun m => jsStartsWith m (name.dropRight 7))
  else none

/-- Resolution stage 5: drop an `-exp`/`-exp-...` suffix and take the
smallest available model extending the stem. -/
def stageExp (avail : List String) (name : String) : Option String :=
  match expStem name with
  | some stem => smallestWith avail (fun m => jsStartsWith m stem)
  | none => none

/-- The claim's description of fuzzy resolution: the five stages tried in
order, first hit wins. -/
def resolveSpec (avail : List String) (name : String) : Option String :=
  match stageExact avail name with
  | some m => some m
  | none =>
    match stageNamespaced avail name with
    | some m => some m
    | none =>
      match stageStarts avail name with
      | some m => some m
      | none =>
        match stageLatest avail name with
        | some m => some m
        | none => stageExp avail name

/-! Retry with backoff (`base.ts` lines 248-268).  The wrapped operation is a
function of the attempt number (attempts are numbered from 1 as in the
source); the trace records the result, how many times the operation ran, and
the delays waited between attempts. -/

/-- The delay inserted before retrying after attempt `attempt` failed:
`baseDelay * Math.pow(2, attempt - 1)`. -/
def retryDelay (baseDelay attempt : Nat) : Nat :=
  baseDelay * 2 ^ (attempt - 1)

/-- Observable trace of one `retryWithBackoff` run. -/
structure RetryTrace (α : Type) where
  result : Except PErr α
  calls : Nat
  delays : List Nat
  deriving Repr

/-- Loop body of `retryWithBackoff`.  `fuel` counts the retries still
allowed; the entry point passes `maxAttempts - 1` so that a failure at
attempt `a` is rethrown exactly when `a ≥ maxAttempts` (or not retryable),
as in the source's `attempt >= maxAttempts || !shouldRetry(error)`. -/
def retryLoop (op : Nat → Except PErr α) (sr : PErr → Bool) (baseDelay : Nat) :
    Nat → Nat → RetryTrace α
  | attempt, 0 => ⟨op attempt, 1, []⟩
  | attempt, fuel + 1 =>
    match op attempt with
    | .ok v => ⟨.ok v, 1, []⟩
    | .error e =>
      if sr e then
        let t := retryLoop op sr baseDelay (attempt + 1) fuel
        ⟨t.result, t.calls + 1, retryDelay baseDelay attempt :: t.delays⟩
      else ⟨.error e, 1, []⟩

/-- `retryWithBackoff(operation, maxAttempts, baseDelay, shouldRetry)`.
The source defaults are `maxAttempts = 5`, `baseDelay = 1000`,
`shouldRetry = () => true`; every call site in `base.ts` passes 5 and 1000
explicitly. -/
def retryWithBackoff (op : Nat → Except PErr α) (maxAttempts baseDelay : Nat)
    (sr : PErr → Bool) : RetryTrace α :=
  retryLoop op sr baseDelay 1 (maxAttempts - 1)

/-- Retry classifier of the two Google providers (`base.ts` lines 640-646 and
935-941): retry exactly the `NetworkError`s whose lowercased message contains
`429` or `resource exhausted`. -/
def shouldRetryGoogle : PErr → Bool
  | .networkError msg =>
    strContains (jsToLower msg) "429" || strContains (jsToLower msg) "resource exhausted"
  | _ => false

/-- Retry classifier of `PerplexityProvider` (`base.ts` lines 1208-1214):
retry exactly the `NetworkError`s whose lowercased message contains `429` or
`rate limit`. -/
def shouldRetryPerplexity : PErr → Bool
  | .networkError msg =>
    strContains (jsToLower msg) "429" || strContains (jsToLower msg) "rate limit"
  | _ => false

/-- Result record of `handleLargeTokenCount`. -/
structure TokenCountAction where
  model : Option String
  error : Option String
  deriving Repr, DecidableEq

/-- `GoogleVertexAIProvider.handleLargeTokenCount` (`base.ts` 650-672). -/
def vertexHandleLargeTokenCount (tokenCount : Nat) : TokenCountAction :=
  if 800000 < tokenCount ∧ tokenCount < 2000000 then
    { model := some "gemini-2.0-pro-exp-02-05", error := none }
  else if 2000000 ≤ tokenCount then
    { model := none
      error := some
        ("Repository content is too large for Vertex AI API.\n" ++
         "Please try:\n" ++
         "1. Using a more specific query to document a particular feature or module\n" ++
         "2. Running the documentation command on a specific directory or file\n" ++
         "3. Cloning the repository locally and using .gitignore to exclude non-essential files") }
  else { model := none, error := none }

/-- `GoogleGenerativeLanguageProvider.handleLargeTokenCount`
(`base.ts` 945-967). -/
def genLangHandleLargeTokenCount (tokenCount : Nat) : TokenCountAction :=
  if 800000 < tokenCount ∧ tokenCount < 2000000 then
    { model := some "gemini-2.0-pro-exp", error := none }
  else if 2000000 ≤ tokenCount then
    { model := none
      error := some
        ("Repository content is too large for Vertex AI API.\n" ++
         "Please try:\n" ++
         "1. Using a more specific query to document a particular feature or module\n" ++
         "2. Running the documentation command on a specific directory or file\n" ++
         "3. Cloning the repository locally and using .gitignore to exclude non-essential files") }
  else { model := none, error := none }

/-- The token-count step at the top of the Google `executePrompt`s: on a
truthy `options.tokenCount`, consult `handleLargeTokenCount`; an error string
becomes a thrown `ProviderError`, a replacement model produces a fresh copy
`{ ...options, model: tokenModel }` of the options. -/
def applyTokenCount (handle : Nat → TokenCountAction) (o : ModelOptions) :
    Except PErr ModelOptions :=
  if tcTruthy o.tokenCount then
    let act := handle (o.tokenCount.getD 0)
    match act.error with
    | some err => .error (.providerError err)
    | none =>
      match act.model with
      | some tm => .ok { o with model := tm }
      | none => .ok o
  else .ok o

/-! Gemini response model (interfaces at the top of `base.ts` plus the parts
of the JSON bodies the code reads). -/

/-- `GeminiGroundingChunk.web`. -/
structure GeminiWebSource where
  uri : String
  title : Option String
  deriving Repr, DecidableEq

/-- `GeminiGroundingChunk`. -/
structure GeminiGroundingChunk where
  web : Option GeminiWebSource
  deriving Repr, DecidableEq

/-- `GeminiGroundingSupport.segment` (start/end indices are never read). -/
structure GeminiSegment where
  text : String
  deriving Repr, DecidableEq

/-- `GeminiGroundingSupport`. -/
structure GeminiGroundingSupport where
  segment : GeminiSegment
  groundingChunkIndices : List Nat
  deriving Repr, DecidableEq

/-- `GeminiGroundingMetadata`. -/
structure GeminiGroundingMetadata where
  groundingChunks : List GeminiGroundingChunk
  groundingSupports : List GeminiGroundingSupport
  webSearchQueries : Option (List String)
  deriving Repr, DecidableEq

/-- One part of a Gemini candidate's content; `text` may be absent. -/
structure GeminiPart where
  text : Option String
  deriving Repr, DecidableEq

/-- A Gemini candidate's `content`. -/
structure GeminiContent where
  parts : List GeminiPart
  deriving Repr, DecidableEq

/-- One entry of `data.candidates`. -/
structure GeminiCandidate where
  content : Option GeminiContent
  groundingMetadata : Option GeminiGroundingMetadata
  deriving Repr, DecidableEq

/-- A Gemini HTTP response as observed by the code: `ok`/`status`, the error
body text read on failure, and the parsed JSON candidates on success. -/
structure GeminiResponse where
  ok : Bool
  status : Nat
  errorText : String
  candidates : List GeminiCandidate
  deriving Repr, DecidableEq

/-- `data.candidates[0]?.content?.parts[0]?.text`. -/
def geminiText (r : GeminiResponse) : Option String :=
  r.candidates.head? >>= (·.content) >>= (fun c => c.parts.head?) >>= (·.text)

/-- `data.candidates[0]?.groundingMetadata`. -/
def geminiGrounding (r : GeminiResponse) : Option GeminiGroundingMetadata :=
  r.candidates.head? >>= (·.groundingMetadata)

/-! Citation formatting from grounding metadata (`base.ts` 569-624, repeated
verbatim at 861-915). -/

/-- The `citationSources` map built from `groundingChunks`: index/web-source
pairs in chunk order, for the chunks that have a `web` field.  A JS `Map`
iterates in insertion order, so an association list is a faithful model. -/
def citationSources (chunks : List GeminiGroundingChunk) :
    List (Nat × GeminiWebSource) :=
  chunks.enum.filterMap (fun p => p.2.web.map (fun w => (p.1, w)))

/-- `'\nWeb search queries:\n'` block (`base.ts` 573-580). -/
def webQueriesText (q : Option (List String)) : String :=
  match q with
  | some qs =>
    if qs ≠ [] then
      "\nWeb search queries:\n" ++ String.join (qs.map (fun x => "- " ++ x ++ "\n")) ++ "\n"
    else ""
  | none => ""

/-- The `[idx+1]` markers appended to one grounding support: those of its
`groundingChunkIndices` that are present in the citation-sources map. -/
def supportMarkers (cs : List (Nat × GeminiWebSource)) (idxs : List Nat) : String :=
  String.join (idxs.filterMap (fun i =>
    if (cs.lookup i).isSome then some ("[" ++ toString (i + 1) ++ "]") else none))

/-- The formatted text built from the grounding supports: each segment's
text, a space plus its markers when any, and a trailing space. -/
def segmentsText (cs : List (Nat × GeminiWebSource))
    (supports : List GeminiGroundingSupport) : String :=
  String.join (supports.map (fun s =>
    let m := supportMarkers cs s.groundingChunkIndices
    s.segment.text ++ (if m ≠ "" then " " ++ m else "") ++ " "))

/-- One line of the `Citations:` list. -/
def citationLine (p : Nat × GeminiWebSource) : String :=
  "[" ++ toString (p.1 + 1) ++ "]: " ++ p.2.uri ++
  (match p.2.title with | some t => " " ++ t | none => "") ++ "\n"

/-- The response post-processing of the Google providers: with grounding
metadata carrying a non-empty support list and a non-empty chunk list the
candidate text is replaced by the formatted citations body; otherwise the
content passes through unchanged. -/
def formatGrounded (content : Option String)
    (grounding : Option GeminiGroundingMetadata) : Option String :=
  match grounding with
  | none => content
  | some g =>
    if 0 < g.groundingSupports.length ∧ 0 < g.groundingChunks.length then
      let wst := webQueriesText g.webSearchQueries
      let cs := citationSources g.groundingChunks
      let ft := segmentsText cs g.groundingSupports
      some (jsTrim (if cs ≠ [] then
              "\nCitations:\n" ++ String.join (cs.map citationLine) ++ "\n" ++ wst ++ ft
             else wst ++ ft))
    else content

/-! The claim's description of the reformatted body, written from the claim's
words: a `Citations:` list mapping marker `[i+1]` to chunk `i`'s web uri (and
title when present) for every chunk that has a web field, then the web search
queries when present, then each support segment's text suffixed by the
markers of its web-sourced chunk indices, all trimmed. -/

/-- Chunk `i` exists and has a web source. -/
def chunkHasWeb (g : GeminiGroundingMetadata) (i : Nat) : Bool :=
  ((g.groundingChunks[i]?).bind (·.web)).isSome

/-- Spec-side citation lines: one line `[i+1]: uri title?` per web chunk. -/
def citationsLinesSpec (g : GeminiGroundingMetadata) : List String :=
  g.groundingChunks.enum.filterMap (fun p =>
    p.2.web.map (fun w =>
      "[" ++ toString (p.1 + 1) ++ "]: " ++ w.uri ++
      (match w.title with | some t => " " ++ t | none => "") ++ "\n"))

/-- Spec-side segment rendering: the segment text suffixed by the `[i+1]`
markers of those of its `groundingChunkIndices` that have a web source. -/
def segmentsTextSpec (g : GeminiGroundingMetadata) : String :=
  String.join (g.groundingSupports.map (fun s =>
    let m := String.join (s.groundingChunkIndices.filterMap (fun i =>
      if chunkHasWeb g i then some ("[" ++ toString (i + 1) ++ "]") else none))
    s.segment.text ++ (if m ≠ "" then " " ++ m else "") ++ " "))

/-- The reformatted body the claim describes. -/
def groundedFormatSpec (g : GeminiGroundingMetadata) : String :=
  jsTrim
    ((if citationsLinesSpec g ≠ [] then
        "\nCitations:\n" ++ String.join (citationsLinesSpec g) ++ "\n"
      else "") ++
     webQueriesText g.webSearchQueries ++ segmentsTextSpec g)

/-! Provider state.  A provider instance owns a `config` (loaded in the
`BaseProvider` constructor and only read for logging) and the
`availableModels` set; the caller's options object lives on the same heap so
that mutating it would be observable.  Each `executePrompt` embedding threads
the heap and returns it alongside the result; the source methods perform no
assignment to `this.config`, `this.availableModels` or the caller's options
(the token-count switch writes to a fresh `{ ...options }` copy), which is
what the returned heap witnesses. -/
structure Heap (C : Type) where
  config : C
  availableModels : Option (List String)
  callerOptions : ModelOptions

/-- `{ text: string }` part of the Google request bodies. -/
structure TextPart where
  text : String
  deriving Repr, DecidableEq

/-- One entry of `contents` in `GoogleVertexAIRequestBody`. -/
structure VertexMessage where
  role : String
  parts : List TextPart
  deriving Repr, DecidableEq

/-- One entry of `contents` in `GoogleGenerativeLanguageRequestBody`. -/
structure GenLangMessage where
  parts : List TextPart
  deriving Repr, DecidableEq

/-- `generationConfig`. -/
structure GenerationConfig where
  maxOutputTokens : Nat
  deriving Repr, DecidableEq

/-- `system_instruction`. -/
structure SystemInstruction where
  parts : List TextPart
  deriving Repr, DecidableEq

/-- `{ google_search: {} }` tool marker. -/
structure GoogleSearchTool where
  deriving Repr, DecidableEq

/-- `GoogleVertexAIRequestBody` from `base.ts`. -/
structure GoogleVertexAIRequestBody where
  contents : List VertexMessage
  generationConfig : GenerationConfig
  system_instruction : Option SystemInstruction
  tools : Option (List GoogleSearchTool)
  deriving Repr, DecidableEq

/-- `GoogleGenerativeLanguageRequestBody` from `base.ts`. -/
structure GoogleGenerativeLanguageRequestBody where
  contents : List GenLangMessage
  generationConfig : GenerationConfig
  system_instruction : Option SystemInstruction
  tools : Option (List GoogleSearchTool)
  deriving Repr, DecidableEq

/-- `GoogleVertexAIProvider.getAuthClient` (`base.ts` 674-703) reduced to its
error behaviour: the `GEMINI_API_KEY` value must be a `.json` key file that
exists on disk, or the literal `adc`. -/
def vertexAuth (apiKey : Option String) (keyFileExists : Bool) : Except PErr Unit :=
  match apiKey with
  | none => .error (.apiKeyMissing "Google Vertex AI")
  | some k =>
    if jsEndsWith k ".json" then
      if ¬ keyFileExists then
        .error (.genericError ("Google Vertex AI JSON key file not found at: " ++ k))
      else .ok ()
    else if jsToLower k = "adc" then .ok ()
    else .error (.genericError
      "Google Vertex AI requires service account authentication. Please provide a JSON key file or use ADC.")

/-- `GoogleGenerativeLanguageProvider.getAPIKey` (`base.ts` 748-762). -/
def genLangAPIKeyCheck (apiKey : Option String) : Except PErr String :=
  match apiKey with
  | none => .error (.apiKeyMissing "Google Generative Language")
  | some k =>
    if jsEndsWith k ".json" || jsToLower k = "adc" then
      .error (.genericError
        "Service account authentication is not supported for Google Generative Language API. Please use an API key.")
    else .ok k

/-- The `ModelNotFoundError` message of the extra model validation inside
`GoogleVertexAIProvider.executePrompt` (`base.ts` 489-496). -/
def vertexNotFoundMsg (model : String) (sims : List String) : String :=
  "Model '" ++ model ++ "' not found in Vertex AI.\n\n" ++
  "You requested: " ++ model ++ "\n" ++
  "Similar available models:\n" ++
  String.intercalate "\n" (sims.map (fun m => "- " ++ m)) ++ "\n\n" ++
  "Use --model with one of the above models."

/-- Response handling of one Vertex AI attempt (`base.ts` 552-630): a
non-ok HTTP response becomes a `NetworkError` carrying status and body; an
ok response is formatted from its grounding metadata and rejected when the
outcome is falsy. -/
def vertexRespCheck (resp : GeminiResponse) : Except PErr String :=
  if ¬ resp.ok then
    .error (.networkError
      ("Google Vertex AI API error (" ++ toString resp.status ++ "): " ++ resp.errorText))
  else
    match formatGrounded (geminiText resp) (geminiGrounding resp) with
    | none => .error (.providerError "Google Vertex AI returned an empty response")
    | some s =>
      if s = "" then .error (.providerError "Google Vertex AI returned an empty response")
      else .ok s

/-- Response handling of one Generative Language attempt (`base.ts`
842-922), mirroring `vertexRespCheck` with its own messages. -/
def genLangRespCheck (resp : GeminiResponse) : Except PErr String :=
  if ¬ resp.ok then
    .error (.networkError
      ("Google Generative Language API error (" ++ toString resp.status ++ "): " ++ resp.errorText))
  else
    match formatGrounded (geminiText resp) (geminiGrounding resp) with
    | none => .error (.providerError "Google Generative Language returned an empty response")
    | some s =>
      if s = "" then
        .error (.providerError "Google Generative Language returned an empty response")
      else .ok s

/-- One attempt of the Vertex AI request (the async closure passed to
`retryWithBackoff`, `base.ts` 510-637).  `transport` maps the model named in
the request URL and the request body to the vendor response. -/
def vertexAttempt (apiKey : Option String) (keyFileExists : Bool)
    (prompt : String) (opts : ModelOptions) (model : String)
    (transport : String → GoogleVertexAIRequestBody → GeminiResponse) :
    Except PErr String :=
  let sp := getSystemPrompt opts
  let body : GoogleVertexAIRequestBody :=
    { contents := [{ role := "user", parts := [{ text := prompt }] }]
      generationConfig := { maxOutputTokens := opts.maxTokens }
      system_instruction := if sp ≠ "" then some { parts := [{ text := sp }] } else none
      tools := if opts.webSearch = some true then some [{}] else none }
  let tryResult : Except PErr String :=
    match vertexAuth apiKey keyFileExists with
    | .error e => .error e
    | .ok _ => vertexRespCheck (transport model body)
  jsCatchWrap tryResult "Failed to communicate with Google Vertex AI API"

/-- `GoogleVertexAIProvider.executePrompt` (`base.ts` 470-648): resolve the
model, apply token-count handling to a fresh options copy, re-validate the
originally resolved model against the available set, then run the request
with retry.  The request URL is built from the `model` constant resolved
before the token-count step. -/
def vertexExecutePromptS {C : Type} (similar : String → List String → List String)
    (apiKey : Option String) (keyFileExists : Bool)
    (h : Heap C) (prompt : String)
    (transport : Nat → String → GoogleVertexAIRequestBody → GeminiResponse) :
    Except PErr String × Heap C :=
  let opts := h.callerOptions
  match getModel similar "GoogleVertexAIProvider" h.availableModels (some opts) with
  | .error e => (.error e, h)
  | .ok model =>
    match applyTokenCount vertexHandleLargeTokenCount opts with
    | .error e => (.error e, h)
    | .ok opts2 =>
      match h.availableModels with
      | none => (.error (.genericError "Models not initialized. Call initializeModels() first."), h)
      | some avail =>
        if ¬ avail.contains model then
          (.error (.modelNotFound (vertexNotFoundMsg model (similar model avail))), h)
        else
          ((retryWithBackoff
              (fun i => vertexAttempt apiKey keyFileExists prompt opts2 model (transport i))
              5 1000 shouldRetryGoogle).result, h)

/-- One attempt of the Generative Language request (`base.ts` 806-931). -/
def genLangAttempt (apiKey : Option String) (prompt : String)
    (opts : ModelOptions) (model : String)
    (transport : String → GoogleGenerativeLanguageRequestBody → GeminiResponse) :
    Except PErr String :=
  let sp := getSystemPrompt opts
  let body : GoogleGenerativeLanguageRequestBody :=
    { contents := [{ parts := [{ text := prompt }] }]
      generationConfig := { maxOutputTokens := opts.maxTokens }
      system_instruction := if sp ≠ "" then some { parts := [{ text := sp }] } else none
      tools := if opts.webSearch = some true then some [{}] else none }
  let tryResult : Except PErr String :=
    match genLangAPIKeyCheck apiKey with
    | .error e => .error e
    | .ok _ => genLangRespCheck (transport model body)
  jsCatchWrap tryResult "Failed to communicate with Google Generative Language API"

/-- `GoogleGenerativeLanguageProvider.executePrompt` (`base.ts` 784-943):
token-count handling runs first (on a fresh options copy), model resolution
runs on the possibly switched options, then the request runs with retry with
the resolved model in the URL. -/
def genLangExecutePromptS {C : Type} (similar : String → List String → List String)
    (apiKey : Option String) (h : Heap C) (prompt : String)
    (transport : Nat → String → GoogleGenerativeLanguageRequestBody → GeminiResponse) :
    Except PErr String × Heap C :=
  let opts := h.callerOptions
  match applyTokenCount genLangHandleLargeTokenCount opts with
  | .error e => (.error e, h)
  | .ok opts2 =>
    match getModel similar "GoogleGenerativeLanguageProvider" h.availableModels (some opts2) with
    | .error e => (.error e, h)
    | .ok model =>
      ((retryWithBackoff
          (fun i => genLangAttempt apiKey prompt opts2 model (transport i))
          5 1000 shouldRetryGoogle).result, h)

/-! OpenAI-style chat responses, used by the OpenAI-compatible providers and
(with the same shape) Perplexity. -/

/-- `choices[i].message`. -/
structure ChatMsg where
  content : Option String
  deriving Repr, DecidableEq

/-- `choices[i]`. -/
structure ChatChoice where
  message : ChatMsg
  deriving Repr, DecidableEq

/-- An OpenAI-SDK chat-completion response. -/
structure ChatResponse where
  choices : List ChatChoice
  deriving Repr, DecidableEq

/-- `OpenAIBase.executePrompt` (`base.ts` 313-359); `ctor` is the concrete
subclass's constructor name.  Reading `choices[0].message` of an empty
`choices` array raises a `TypeError`, which the `catch` wraps into a
`NetworkError`. -/
def openAIBaseExecutePromptS {C : Type} (similar : String → List String → List String)
    (ctor : String) (h : Heap C) (resp : ChatResponse) :
    Except PErr String × Heap C :=
  match getModel similar ctor h.availableModels (some h.callerOptions) with
  | .error e => (.error e, h)
  | .ok _model =>
    (jsCatchWrap
      (match resp.choices.head? with
       | none => .error (.genericError "TypeError")
       | some c =>
         match c.message.content with
         | none => .error (.providerError (ctor ++ " returned an empty response"))
         | some s =>
           if s = "" then .error (.providerError (ctor ++ " returned an empty response"))
           else .ok s)
      ("Failed to communicate with " ++ ctor ++ " API"), h)

/-- `OpenRouterProvider.executePrompt` (`base.ts` 1064-1111): same request
and response handling as `OpenAIBase` with OpenRouter's constructor name. -/
def openRouterExecutePromptS {C : Type} (similar : String → List String → List String)
    (h : Heap C) (resp : ChatResponse) : Except PErr String × Heap C :=
  match getModel similar "OpenRouterProvider" h.availableModels (some h.callerOptions) with
  | .error e => (.error e, h)
  | .ok _model =>
    (jsCatchWrap
      (match resp.choices.head? with
       | none => .error (.genericError "TypeError")
       | some c =>
         match c.message.content with
         | none => .error (.providerError "OpenRouterProvider returned an empty response")
         | some s =>
           if s = "" then .error (.providerError "OpenRouterProvider returned an empty response")
           else .ok s)
      "Failed to communicate with OpenRouterProvider API", h)

/-- The per-chunk loop of `OpenAIProvider.executePrompt` (`base.ts`
998-1034): each chunk's response content is appended (with a newline) when
truthy and skipped with a warning otherwise; an error aborts the loop. -/
def openAIChunkLoop (resps : Nat → ChatResponse) : Nat → List String → Except PErr String
  | _, [] => .ok ""
  | i, _ :: rest =>
    let step : Except PErr String :=
      match (resps i).choices.head? with
      | none => .error (.genericError "TypeError")
      | some c =>
        match c.message.content with
        | some s => if s ≠ "" then .ok (s ++ "\n") else .ok ""
        | none => .ok ""
    match jsCatchWrap step "Failed to communicate with OpenAIProvider API" with
    | .error e => .error e
    | .ok piece => (openAIChunkLoop resps (i + 1) rest).map (fun acc => piece ++ acc)

/-- `OpenAIProvider.executePrompt` (`base.ts` 989-1042): the prompt is split
by the imported `chunkMessage` at OpenAI's 1048576-character limit, the chunk
responses are concatenated, and a blank combined result is rejected. -/
def openAIExecutePromptS {C : Type} (similar : String → List String → List String)
    (chunkMessage : String → Nat → List String)
    (h : Heap C) (prompt : String) (resps : Nat → ChatResponse) :
    Except PErr String × Heap C :=
  match getModel similar "OpenAIProvider" h.availableModels (some h.callerOptions) with
  | .error e => (.error e, h)
  | .ok _model =>
    match openAIChunkLoop resps 0 (chunkMessage prompt 1048576) with
    | .error e => (.error e, h)
    | .ok combined =>
      if jsTrim combined = "" then
        (.error (.providerError
          "OpenAIProvider returned an overall empty response after processing chunks."), h)
      else (.ok (jsTrim combined), h)

/-- Perplexity's `choices[0]?.message?.content` path uses optional chaining,
so a missing choice yields `undefined` rather than a `TypeError`. -/
structure PplxResponse where
  ok : Bool
  errorText : String
  choices : List ChatChoice
  deriving Repr, DecidableEq

/-- Response handling of one Perplexity attempt (`base.ts` 1159-1198). -/
def pplxRespCheck (resp : PplxResponse) : Except PErr String :=
  if ¬ resp.ok then
    .error (.networkError ("Perplexity API error: " ++ resp.errorText))
  else
    match resp.choices.head? >>= (fun c => c.message.content) with
    | none => .error (.providerError "Perplexity returned an empty response")
    | some s =>
      if s = "" then .error (.providerError "Perplexity returned an empty response")
      else .ok s

/-- One attempt of the Perplexity request (the closure given to
`retryWithBackoff` in `base.ts` 1145-1205); `getModel` runs inside the
closure but outside its inner `try`. -/
def perplexityAttempt {C : Type} (similar : String → List String → List String)
    (h : Heap C) (resp : PplxResponse) : Except PErr String :=
  match getModel similar "PerplexityProvider" h.availableModels (some h.callerOptions) with
  | .error e => .error e
  | .ok _model =>
    jsCatchWrap (pplxRespCheck resp) "Failed to communicate with Perplexity API"

/-- `PerplexityProvider.executePrompt` (`base.ts` 1138-1216): the API key is
checked first, then the whole attempt (including model resolution) runs under
`retryWithBackoff` with the Perplexity retry classifier. -/
def perplexityExecutePromptS {C : Type} (similar : String → List String → List String)
    (apiKey : Option String) (h : Heap C) (transports : Nat → PplxResponse) :
    Except PErr String × Heap C :=
  match apiKey with
  | none => (.error (.apiKeyMissing "Perplexity"), h)
  | some _ =>
    ((retryWithBackoff (fun i => perplexityAttempt similar h (transports i))
        5 1000 shouldRetryPerplexity).result, h)

/-- One block of an Anthropic response's `content` array. -/
structure AnthropicBlock where
  type : String
  text : String
  deriving Repr, DecidableEq

/-- An Anthropic messages response. -/
structure AnthropicResponse where
  content : List AnthropicBlock
  deriving Repr, DecidableEq

/-- `AnthropicProvider.executePrompt` (`base.ts` 1513-1556): the first
content block must exist and be a text block; its text is returned as-is. -/
def anthropicExecutePromptS {C : Type} (similar : String → List String → List String)
    (h : Heap C) (resp : AnthropicResponse) : Except PErr String × Heap C :=
  match getModel similar "AnthropicProvider" h.availableModels (some h.callerOptions) with
  | .error e => (.error e, h)
  | .ok _model =>
    (jsCatchWrap
      (match resp.content.head? with
       | none => .error (.providerError "Anthropic returned an invalid response")
       | some b =>
         if b.type ≠ "text" then .error (.providerError "Anthropic returned an invalid response")
         else .ok b.text)
      "Failed to communicate with Anthropic API", h)

/-! ModelBox (`base.ts` 1220-1487).  `stringSimilarity` is imported from
outside the sources and is a parameter `sim`. -/

/-- `model.includes('/') ? model.split('/')[1] : model`. -/
def stripNS (m : String) : String :=
  if containsChar m '/' then ((jsSplitSlash m)[1]?).getD "" else m

/-- The `matchingModels` filter used by ModelBox (`base.ts` 1284-1290 and
1396-1402): exact id, `openai/`-qualified id, any-provider suffix match, or
exact unqualified id. -/
def modelBoxMatching (avail : List String) (model base : String) : List String :=
  avail.filter (fun m =>
    m == model || m == ("openai/" ++ model) || jsEndsWith m ("/" ++ base) || m == base)

/-- Insertion into a list already sorted descending by `key`. -/
def insertBySimDesc (key : String → Rat) (x : String) : List String → List String
  | [] => [x]
  | y :: ys => if key y ≤ key x then x :: y :: ys else y :: insertBySimDesc key x ys

/-- Stable sort descending by `key`, the JS
`sort((a, b) => key(b) - key(a))`. -/
def sortBySimDesc (key : String → Rat) : List String → List String
  | [] => []
  | x :: xs => insertBySimDesc key x (sortBySimDesc key xs)

/-- ModelBox's similar-model suggestions (`base.ts` 1294-1306 and
1406-1418): candidates whose unqualified name is more than 0.5 similar to
the requested one, sorted by descending similarity. -/
def modelBoxSimilar (sim : String → String → Rat) (avail : List String)
    (base : String) : List String :=
  sortBySimDesc (fun m => sim base (stripNS m))
    (avail.filter (fun m => (1 : Rat) / 2 < sim base (stripNS m)))

/-- The `ModelNotFoundError` message of `ModelBoxProvider.executePrompt`
(`base.ts` 1420-1428). -/
def modelBoxNotFoundMsg (model : String) (sims : List String) : String :=
  "Model '" ++ model ++ "' not found in ModelBox.\n\n" ++
  "You requested: " ++ model ++ "\n" ++
  "Similar available models:\n" ++
  String.intercalate "\n" ((sims.take 5).map (fun m => "- " ++ m)) ++ "\n\n" ++
  "Use --model with one of the above models. Note: ModelBox requires provider prefixes (e.g., 'openai/gpt-4' instead of just 'gpt-4')."

/-- `ModelBoxProvider.executeWithModel` (`base.ts` 1445-1486) reduced to its
response handling. -/
def modelBoxExecuteWithModel (resp : ChatResponse) : Except PErr String :=
  match resp.choices.head? with
  | none => .error (.genericError "TypeError")
  | some c =>
    match c.message.content with
    | none => .error (.providerError "ModelBoxProvider returned an empty response")
    | some s =>
      if s = "" then .error (.providerError "ModelBoxProvider returned an empty response")
      else .ok s

/-- `ModelBoxProvider.executePrompt` (`base.ts` 1361-1442): after the base
`getModel` resolution, ModelBox re-resolves against its prefixed id list
(exact, exact-in-namespace, then the `matchingModels` filter) and calls
`executeWithModel` on the first match; with no match it throws a
`ModelNotFoundError` built from similarity suggestions.  Everything after
`getModel` sits in a `try` whose `catch` wraps non-provider errors. -/
def modelBoxExecutePromptS {C : Type} (similar : String → List String → List String)
    (sim : String → String → Rat) (h : Heap C)
    (transport : String → ChatResponse) : Except PErr String × Heap C :=
  match getModel similar "ModelBoxProvider" h.availableModels (some h.callerOptions) with
  | .error e => (.error e, h)
  | .ok model =>
    let tryResult : Except PErr String :=
      match h.availableModels with
      | none => .error (.genericError "Models not initialized. Call initializeModels() first.")
      | some avail =>
        let base := stripNS model
        if avail.contains model then modelBoxExecuteWithModel (transport model)
        else
          match avail.find? (fun m =>
              (jsSplitSlash m).length == 2 && (jsSplitSlash m)[1]? == some base) with
          | some m => modelBoxExecuteWithModel (transport m)
          | none =>
            match modelBoxMatching avail model base with
            | [] =>
              .error (.modelNotFound (modelBoxNotFoundMsg model (modelBoxSimilar sim avail base)))
            | m :: _ => modelBoxExecuteWithModel (transport m)
    (jsCatchWrap tryResult "Failed to communicate with ModelBoxProvider API", h)

/-! `supportsWebSearch` (`base.ts` 304-311, 409-468, 980-987, 1113-1120,
1125-1136, 1273-1359, 1504-1511, 1598-1606). -/

/-- The `{ supported, model?, error? }` record. -/
structure WebSearchSupport where
  supported : Bool
  model : Option String
  error : Option String
  deriving Repr, DecidableEq

/-- `m.includes('sonar') || m.includes('online') || m.includes('gemini')`,
the filter applied to full model ids in the suggestion lists. -/
def webSearchWord (m : String) : Bool :=
  strContains m "sonar" || strContains m "online" || strContains m "gemini"

/-- `isWebSearchSupportedModelOnModelBox` (`base.ts` 1598-1606): the model
name without its provider namespace contains `sonar`, `online` or
`gemini`. -/
def isWebSearchSupportedModelOnModelBox (model : String) : Bool :=
  webSearchWord (stripNS model)

/-- `PerplexityProvider.supportsWebSearch` (`base.ts` 1125-1136). -/
def perplexitySupportsWebSearch (modelName : String) : WebSearchSupport :=
  if jsStartsWith modelName "sonar" then { supported := true, model := none, error := none }
  else
    { supported := false
      model := some "sonar-pro"
      error := some ("Model " ++ modelName ++
        " does not support web search. Use a model with -online suffix instead.") }

/-- `OpenAIBase.supportsWebSearch` (`base.ts` 304-311), also the override in
`OpenAIProvider` (980-987). -/
def openAISupportsWebSearch (_modelName : String) : WebSearchSupport :=
  { supported := false, model := none
    error := some "OpenAI does not support web search capabilities" }

/-- `OpenRouterProvider.supportsWebSearch` (`base.ts` 1113-1120). -/
def openRouterSupportsWebSearch (_modelName : String) : WebSearchSupport :=
  { supported := false, model := none
    error := some "OpenRouter does not support web search capabilities" }

/-- `AnthropicProvider.supportsWebSearch` (`base.ts` 1504-1511). -/
def anthropicSupportsWebSearch (_modelName : String) : WebSearchSupport :=
  { supported := false, model := none
    error := some "Anthropic does not support web search capabilities" }

/-- `GoogleVertexAIProvider.supportsWebSearch` (`base.ts` 409-468): an
uninitialized model set lands in the `catch`; an unknown model yields
suggestions; a found model is supported exactly when
`isWebSearchSupportedModelOnModelBox` accepts its unqualified name. -/
def vertexSupportsWebSearch (similar : String → List String → List String)
    (avail : Option (List String)) (modelName : String) : WebSearchSupport :=
  match avail with
  | none =>
    { supported := false, model := none
      error := some "Failed to check web search support. Please try again." }
  | some l =>
    let base := stripNS modelName
    if ¬ l.contains base then
      let ws := (similar base l).filter webSearchWord
      match ws with
      | w :: _ =>
        { supported := false, model := some w
          error := some ("Model '" ++ modelName ++ "' not found. Consider using " ++ w ++
            " for web search instead.") }
      | [] =>
        { supported := false, model := none
          error := some ("Model '" ++ modelName ++ "' not found.\n\nAvailable web search models:\n" ++
            String.intercalate "\n" (((l.filter webSearchWord).take 5).map (fun m => "- " ++ m))) }
    else if isWebSearchSupportedModelOnModelBox base then
      { supported := true, model := none, error := none }
    else
      let ws := (l.filter webSearchWord).take 5
      { supported := false, model := ws.head?
        error := some ("Model " ++ modelName ++ " does not support web search. Try one of these models:\n" ++
          String.intercalate "\n" (ws.map (fun m => "- " ++ m))) }

/-- `ModelBoxProvider.supportsWebSearch` (`base.ts` 1273-1359): the model is
looked up through the `matchingModels` filter; the first match is supported
exactly when `isWebSearchSupportedModelOnModelBox` accepts it. -/
def modelBoxSupportsWebSearch (sim : String → String → Rat)
    (avail : Option (List String)) (modelName : String) : WebSearchSupport :=
  match avail with
  | none =>
    { supported := false, model := none
      error := some "Failed to check web search support. Please try again." }
  | some l =>
    let base := stripNS modelName
    match modelBoxMatching l modelName base with
    | [] =>
      let ws := (modelBoxSimilar sim l base).filter webSearchWord
      match ws with
      | w :: _ =>
        { supported := false, model := some w
          error := some ("Model '" ++ modelName ++ "' not found. Consider using " ++ w ++
            " for web search instead.\nNote: ModelBox requires provider prefixes (e.g., 'openai/gpt-4' instead of just 'gpt-4').") }
      | [] =>
        { supported := false, model := none
          error := some ("Model '" ++ modelName ++ "' not found.\n\nAvailable web search models:\n" ++
            String.intercalate "\n" (((l.filter webSearchWord).take 5).map (fun m => "- " ++ m)) ++
            "\n\nNote: ModelBox requires provider prefixes (e.g., 'openai/gpt-4' instead of just 'gpt-4').") }
    | m :: _ =>
      if isWebSearchSupportedModelOnModelBox m then
        { supported := true, model := none, error := none }
      else
        let ws := (l.filter webSearchWord).take 5
        { supported := false, model := ws.head?
          error := some ("Model " ++ m ++ " does not support web search. Try one of these models:\n" ++
            String.intercalate "\n" (ws.map (fun n => "- " ++ n))) }

/-! Concrete fixtures used to instantiate the theorems. -/

/-- Fixture: a `getSimilarModels` stand-in returning no suggestions. -/
def noSimilar : String → List String → List String := fun _ _ => []

/-- Fixture: a `getSimilarModels` stand-in suggesting one model. -/
def oneSimilar : String → List String → List String := fun _ _ => ["gemini-2.0-flash"]

/-- Fixture: options requesting `model` with the given token count. -/
def mkOptions (model : String) (tokenCount : Option Nat) : ModelOptions :=
  { model := model, maxTokens := 100, systemPrompt := "sp", tokenCount := tokenCount
    webSearch := none, timeout := none, debug := none }

/-- Fixture: a provider heap with trivial config. -/
def heapOf (avail : Option (List String)) (o : ModelOptions) : Heap Unit :=
  { config := (), availableModels := avail, callerOptions := o }

/-- Fixture: a successful Gemini response that echoes the model named in the
request URL, exposing which model the provider actually called. -/
def echoGemini (m : String) : GeminiResponse :=
  { ok := true, status := 200, errorText := ""
    candidates := [{ content := some { parts := [{ text := some ("url-model:" ++ m) }] }
                     groundingMetadata := none }] }

/-- Fixture: grounding metadata with one web chunk, one webless chunk, a web
search query and two supports. -/
def groundedMeta : GeminiGroundingMetadata :=
  { groundingChunks := [{ web := some { uri := "https://a.example", title := some "A" } },
                        { web := none }]
    groundingSupports := [{ segment := { text := "First sentence." }, groundingChunkIndices := [0, 1] },
                          { segment := { text := "Second sentence." }, groundingChunkIndices := [1] }]
    webSearchQueries := some ["query one"] }

/-- Fixture: a successful Gemini response carrying `groundedMeta`. -/
def groundedGemini : GeminiResponse :=
  { ok := true, status := 200, errorText := ""
    candidates := [{ content := some { parts := [{ text := some "raw text" }] }
                     groundingMetadata := some groundedMeta }] }

/-! Helper lemmas. -/

theorem mem_insertDesc {x a : String} {l : List String} :
    a ∈ insertDesc x l ↔ a = x ∨ a ∈ l := by
  induction l with
  | nil => simp [insertDesc]
  | cons y ys ih =>
    unfold insertDesc
    by_cases h : strLe y x = true
    · simp [h]
    · simp only [if_neg h, List.mem_cons, ih]
      tauto

theorem mem_sortDesc {a : String} {l : List String} : a ∈ sortDesc l ↔ a ∈ l := by
  induction l with
  | nil => simp [sortDesc]
  | cons x xs ih => simp [sortDesc, mem_insertDesc, ih]

theorem smallestWith_mem {l : List String} {p : String → Bool} {m : String}
    (h : smallestWith l p = some m) : m ∈ l ∧ p m = true := by
  unfold smallestWith at h
  have hm : m ∈ sortDesc (l.filter p) := List.mem_of_mem_getLast? h
  rw [mem_sortDesc, List.mem_filter] at hm
  exact hm

theorem stageExact_mem {l : List String} {name m : String}
    (h : stageExact l name = some m) : m ∈ l := by
  unfold stageExact at h
  by_cases hc : l.contains name
  · rw [if_pos hc] at h
    cases h
    exact List.elem_iff.mp hc
  · rw [if_neg hc] at h
    cases h

theorem stageNamespaced_mem {l : List String} {name m : String}
    (h : stageNamespaced l name = some m) : m ∈ l := by
  unfold stageNamespaced at h
  split at h
  · cases h
  · exact List.mem_of_find?_eq_some h

theorem stageLatest_mem {l : List String} {name m : String}
    (h : stageLatest l name = some m) : m ∈ l := by
  unfold stageLatest at h
  split at h
  · exact (smallestWith_mem h).1
  · cases h

theorem stageExp_mem {l : List String} {name m : String}
    (h : stageExp l name = some m) : m ∈ l := by
  unfold stageExp at h
  split at h
  · exact (smallestWith_mem h).1
  · cases h

theorem resolveSpec_mem {l : List String} {name m : String}
    (h : resolveSpec l name = some m) : m ∈ l := by
  unfold resolveSpec at h
  cases h1 : stageExact l name with
  | some v => rw [h1] at h; cases h; exact stageExact_mem h1
  | none =>
    rw [h1] at h
    cases h2 : stageNamespaced l name with
    | some v => rw [h2] at h; cases h; exact stageNamespaced_mem h2
    | none =>
      rw [h2] at h
      cases h3 : stageStarts l name with
      | some v => rw [h3] at h; cases h; exact (smallestWith_mem h3).1
      | none =>
        rw [h3] at h
        cases h4 : stageLatest l name with
        | some v => rw [h4] at h; cases h; exact stageLatest_mem h4
        | none => rw [h4] at h; exact stageExp_mem h

/-- Characterization of `getModel` with an initialized model set and a
non-empty requested name: the result is the first hit of the five resolution
stages, and a full miss is the `ModelNotFoundError` carrying either the
similar-models message or the all-models message. -/
theorem getModel_char (similar : String → List String → List String) (ctor : String)
    (l : List String) (o : ModelOptions) (hm : o.model ≠ "") :
    getModel similar ctor (some l) (some o) =
      match resolveSpec l o.model with
      | some m => Except.ok m
      | none =>
        Except.error (PErr.modelNotFound
          (if similar o.model l ≠ [] then notFoundSimilarMsg ctor o.model (similar o.model l)
           else notFoundRecentMsg ctor o.model (sortDesc l))) := by
  unfold getModel resolveSpec stageExact stageNamespaced stageStarts stageLatest stageExp smallestWith
  dsimp only
  rw [if_neg hm]
  by_cases hc : l.contains o.model = true
  · simp only [hc, if_true]
  · simp only [hc, if_false, Bool.false_eq_true, reduceIte]
    cases h2 : (if containsChar o.model '/' then (none : Option String)
        else l.find? (fun m =>
          (jsSplitSlash m).length == 2 && (jsSplitSlash m)[1]? == some o.model)) with
    | some v => simp only [h2]
    | none =>
      simp only [h2]
      cases h3 : (sortDesc (l.filter (fun m => jsStartsWith m o.model))).getLast? with
      | some v => simp only [h3]
      | none =>
        simp only [h3]
        cases h4 : (if jsEndsWith o.model "-latest" then
            (sortDesc (l.filter (fun m => jsStartsWith m (o.model.dropRight 7)))).getLast?
          else (none : Option String)) with
        | some v => simp only [h4]
        | none =>
          simp only [h4]
          cases h5 : (match expStem o.model with
            | some stem => (sortDesc (l.filter (fun m => jsStartsWith m stem))).getLast?
            | none => (none : Option String)) with
          | some v => simp only [h5]
          | none =>
            simp only [h5]
            by_cases hs : similar o.model l = []
            · simp [hs]
            · simp [hs]

/-- `getModel` with `options` undefined. -/
theorem getModel_no_options (similar : String → List String → List String)
    (ctor : String) (avail : Option (List String)) :
    getModel similar ctor avail none =
      .error (.modelNotFound (providerDisplayName ctor)) := rfl

/-- `getModel` with a falsy (empty) `options.model`. -/
theorem getModel_empty_model (similar : String → List String → List String)
    (ctor : String) (avail : Option (List String)) (o : ModelOptions)
    (h : o.model = "") :
    getModel similar ctor avail (some o) =
      .error (.modelNotFound (providerDisplayName ctor)) := by
  simp [getModel, h]

/-- `getModel` hits stage 1 when the requested model is in the set. -/
theorem getModel_exact (similar : String → List String → List String)
    (ctor : String) (l : List String) (o : ModelOptions)
    (hm : o.model ≠ "") (hc : l.contains o.model = true) :
    getModel similar ctor (some l) (some o) = .ok o.model := by
  unfold getModel
  dsimp only
  rw [if_neg hm]
  simp only [hc, if_true]

/-! Lemmas about the retry loop. -/

theorem retryLoop_calls_pos (op : Nat → Except PErr α) (sr : PErr → Bool) (d a f : Nat) :
    1 ≤ (retryLoop op sr d a f).calls := by
  cases f with
  | zero => simp [retryLoop]
  | succ f =>
    unfold retryLoop
    cases op a with
    | ok v => simp
    | error e =>
      by_cases hs : sr e = true
      · simp [hs]
      · simp [hs]

theorem retryLoop_calls_le (op : Nat → Except PErr α) (sr : PErr → Bool) (d : Nat) :
    ∀ f a, (retryLoop op sr d a f).calls ≤ f + 1 := by
  intro f
  induction f with
  | zero => intro a; simp [retryLoop]
  | succ f ih =>
    intro a
    unfold retryLoop
    cases op a with
    | ok v => simp
    | error e =>
      by_cases hs : sr e = true
      · simp only [hs, if_true]
        have := ih (a + 1)
        omega
      · simp [hs]

theorem retryLoop_ok (op : Nat → Except PErr α) (sr : PErr → Bool) (d a f : Nat)
    (v : α) (h : op a = .ok v) : retryLoop op sr d a f = ⟨.ok v, 1, []⟩ := by
  cases f with
  | zero => simp [retryLoop, h]
  | succ f => simp [retryLoop, h]

theorem retryLoop_stop (op : Nat → Except PErr α) (sr : PErr → Bool) (d a f : Nat)
    (e : PErr) (h : op a = .error e) (hs : sr e = false) :
    retryLoop op sr d a f = ⟨.error e, 1, []⟩ := by
  cases f with
  | zero => simp [retryLoop, h]
  | succ f => simp [retryLoop, h, hs]

theorem retryLoop_result_last (op : Nat → Except PErr α) (sr : PErr → Bool) (d : Nat) :
    ∀ f a e, (retryLoop op sr d a f).result = .error e →
      op (a + (retryLoop op sr d a f).calls - 1) = .error e := by
  intro f
  induction f with
  | zero =>
    intro a e h
    simp only [retryLoop] at h ⊢
    simpa using h
  | succ f ih =>
    intro a e h
    unfold retryLoop at h ⊢
    cases hop : op a with
    | ok v => rw [hop] at h; simp at h
    | error e0 =>
      rw [hop] at h
      by_cases hs : sr e0 = true
      · simp only [hs, if_true] at h ⊢
        have hcp := retryLoop_calls_pos op sr d (a + 1) f
        have hlast := ih (a + 1) e h
        have harith : a + ((retryLoop op sr d (a + 1) f).calls + 1) - 1 =
            a + 1 + (retryLoop op sr d (a + 1) f).calls - 1 := by omega
        rw [harith]
        exact hlast
      · simp only [hs, if_false, Bool.false_eq_true, reduceIte] at h ⊢
        cases h
        simpa using hop

theorem retryLoop_delays_eq (op : Nat → Except PErr α) (sr : PErr → Bool) (d : Nat) :
    ∀ f a, (retryLoop op sr d a f).delays =
      (List.range' a ((retryLoop op sr d a f).calls - 1)).map (retryDelay d) := by
  intro f
  induction f with
  | zero => intro a; simp [retryLoop]
  | succ f ih =>
    intro a
    unfold retryLoop
    cases hop : op a with
    | ok v => simp
    | error e0 =>
      by_cases hs : sr e0 = true
      · simp only [hs, if_true]
        have hcp := retryLoop_calls_pos op sr d (a + 1) f
        have harith : (retryLoop op sr d (a + 1) f).calls + 1 - 1 =
            ((retryLoop op sr d (a + 1) f).calls - 1) + 1 := by omega
        rw [harith, List.range'_succ]
        simp only [List.map_cons]
        rw [ih (a + 1)]
      · simp [hs]

theorem retryLoop_allfail (op : Nat → Except PErr α) (sr : PErr → Bool) (d : Nat) :
    ∀ f a, (∀ j, a ≤ j → j ≤ a + f → ∃ ej, op j = .error ej ∧ sr ej = true) →
      (retryLoop op sr d a f).result = op (a + f) ∧
      (retryLoop op sr d a f).calls = f + 1 := by
  intro f
  induction f with
  | zero => intro a _; simp [retryLoop]
  | succ f ih =>
    intro a hall
    obtain ⟨e0, hop, hs⟩ := hall a (Nat.le_refl a) (by omega)
    unfold retryLoop
    rw [hop]
    simp only [hs, if_true]
    have := ih (a + 1) (fun j hj1 hj2 => hall j (by omega) (by omega))
    refine ⟨?_, ?_⟩
    · rw [this.1]
      congr 1
      omega
    · rw [this.2]

theorem retryLoop_run (op : Nat → Except PErr α) (sr : PErr → Bool) (d : Nat) :
    ∀ f a k e, 1 ≤ k → k ≤ f + 1 →
      (∀ j, a ≤ j → j + 1 < a + k → ∃ ej, op j = .error ej ∧ sr ej = true) →
      op (a + k - 1) = .error e → sr e = false →
      retryLoop op sr d a f = ⟨.error e, k, (List.range' a (k - 1)).map (retryDelay d)⟩ := by
  intro f
  induction f with
  | zero =>
    intro a k e hk1 hk2 _ hop hs
    have hk : k = 1 := by omega
    subst hk
    simp only [retryLoop]
    have : a + 1 - 1 = a := by omega
    rw [this] at hop
    simp [hop]
  | succ f ih =>
    intro a k e hk1 hk2 hpre hop hs
    by_cases hk : k = 1
    · subst hk
      have : a + 1 - 1 = a := by omega
      rw [this] at hop
      exact retryLoop_stop op sr d a (f + 1) e hop hs
    · obtain ⟨m, rfl⟩ : ∃ m, k = m + 2 := ⟨k - 2, by omega⟩
      obtain ⟨e0, hop0, hs0⟩ := hpre a (Nat.le_refl a) (by omega)
      unfold retryLoop
      rw [hop0]
      simp only [hs0, if_true]
      have hrec := ih (a + 1) (m + 1) e (by omega) (by omega)
        (fun j hj1 hj2 => hpre j (by omega) (by omega))
        (by have harith : a + 1 + (m + 1) - 1 = a + (m + 2) - 1 := by omega
            rw [harith]; exact hop)
        hs
      have hm1 : m + 1 - 1 = m := by omega
      rw [hm1] at hrec
      rw [hrec]
      dsimp only
      have hr : List.range' a (m + 2 - 1) = a :: List.range' (a + 1) m := rfl
      rw [hr, List.map_cons]

/-- First-attempt success passes straight through the retry wrapper. -/
theorem retry_first_ok (op : Nat → Except PErr α) (sr : PErr → Bool) (n d : Nat)
    (v : α) (h : op 1 = .ok v) : (retryWithBackoff op n d sr).result = .ok v := by
  unfold retryWithBackoff
  rw [retryLoop_ok op sr d 1 (n - 1) v h]

/-- A first-attempt error that the classifier rejects is rethrown at once. -/
theorem retry_first_stop (op : Nat → Except PErr α) (sr : PErr → Bool) (n d : Nat)
    (e : PErr) (h : op 1 = .error e) (hs : sr e = false) :
    (retryWithBackoff op n d sr).result = .error e := by
  unfold retryWithBackoff
  rw [retryLoop_stop op sr d 1 (n - 1) e h hs]

/-- A successful retry result comes from some attempt of the operation. -/
theorem retry_ok_exists (op : Nat → Except PErr α) (sr : PErr → Bool) (d : Nat) :
    ∀ f a v, (retryLoop op sr d a f).result = .ok v → ∃ i, op i = .ok v := by
  intro f
  induction f with
  | zero =>
    intro a v h
    simp only [retryLoop] at h
    exact ⟨a, h⟩
  | succ f ih =>
    intro a v h
    unfold retryLoop at h
    cases hop : op a with
    | ok w =>
      rw [hop] at h
      simp only at h
      cases h
      exact ⟨a, hop⟩
    | error e0 =>
      rw [hop] at h
      by_cases hs : sr e0 = true
      · simp only [hs, if_true] at h
        exact ih (a + 1) v h
      · simp only [hs, if_false, Bool.false_eq_true, reduceIte] at h
        exact absurd h (by simp)

/-! Claim theorems: model resolution. -/

/-- Claim C1: with an initialized, non-empty available-model set and a
non-empty requested name, `getModel` succeeds exactly on the first hit of the
five resolution stages tried in order (exact membership; exact match inside a
provider namespace for unqualified names; smallest prefix match; smallest
match after dropping `-latest`; smallest match after dropping an
`-exp`/`-exp-...` suffix), and every name resolved by those stages is a
member of the available set. -/
theorem getModel_staged_resolution (similar : String → List String → List String)
    (ctor : String) (l : List String) (o : ModelOptions)
    (hl : l ≠ []) (hm : o.model ≠ "") :
    (∀ m, getModel similar ctor (some l) (some o) = .ok m ↔ resolveSpec l o.model = some m) ∧
    (∀ m, resolveSpec l o.model = some m → m ∈ l) := by
  refine ⟨?_, fun m h => resolveSpec_mem h⟩
  intro m
  rw [getModel_char similar ctor l o hm]
  cases h : resolveSpec l o.model with
  | some v => simp
  | none => simp

/-- Witness for C1 at a concrete provider state. -/
theorem getModel_staged_resolution_witness :
    (∀ m, getModel noSimilar "GoogleVertexAIProvider"
        (some ["gemini-1.5-pro-001", "gemini-2.0-flash"])
        (some (mkOptions "gemini-1.5-pro" none)) = .ok m ↔
      resolveSpec ["gemini-1.5-pro-001", "gemini-2.0-flash"]
        (mkOptions "gemini-1.5-pro" none).model = some m) ∧
    (∀ m, resolveSpec ["gemini-1.5-pro-001", "gemini-2.0-flash"]
        (mkOptions "gemini-1.5-pro" none).model = some m →
      m ∈ ["gemini-1.5-pro-001", "gemini-2.0-flash"]) :=
  getModel_staged_resolution noSimilar "GoogleVertexAIProvider"
    ["gemini-1.5-pro-001", "gemini-2.0-flash"] (mkOptions "gemini-1.5-pro" none)
    (by decide) (by decide)

/-- Claim C6: when every resolution stage fails, `getModel` throws a
`ModelNotFoundError` (never a silent fallback); the message lists the similar
models when `getSimilarModels` found any, and otherwise all available models
sorted in descending order. -/
theorem getModel_not_found_error (similar : String → List String → List String)
    (ctor : String) (l : List String) (o : ModelOptions)
    (hl : l ≠ []) (hm : o.model ≠ "") (hr : resolveSpec l o.model = none) :
    getModel similar ctor (some l) (some o) =
      .error (.modelNotFound
        (if similar o.model l ≠ [] then notFoundSimilarMsg ctor o.model (similar o.model l)
         else notFoundRecentMsg ctor o.model (sortDesc l))) := by
  rw [getModel_char similar ctor l o hm, hr]

/-- Witness for C6, in both the with-suggestions and no-suggestions cases. -/
theorem getModel_not_found_error_witness :
    getModel oneSimilar "GoogleGenerativeLanguageProvider" (some ["gemini-2.0-flash"])
        (some (mkOptions "zzz" none)) =
      .error (.modelNotFound
        (if oneSimilar "zzz" ["gemini-2.0-flash"] ≠ [] then
          notFoundSimilarMsg "GoogleGenerativeLanguageProvider" "zzz"
            (oneSimilar "zzz" ["gemini-2.0-flash"])
         else notFoundRecentMsg "GoogleGenerativeLanguageProvider" "zzz"
            (sortDesc ["gemini-2.0-flash"]))) :=
  getModel_not_found_error oneSimilar "GoogleGenerativeLanguageProvider"
    ["gemini-2.0-flash"] (mkOptions "zzz" none) (by decide) (by decide) (by rfl)

/-- Claim C9 (amended): `getModel` with `options` undefined or a missing or
empty `options.model` throws a `ModelNotFoundError` naming the provider (the
constructor name with the first `Provider` occurrence removed, which for
every concrete provider is the `Provider` suffix); `executePrompt` therefore
fails with that `ModelNotFoundError` for every provider — except
`GoogleGenerativeLanguageProvider`, whose token-count switching runs before
model resolution, and `PerplexityProvider`, which checks its API key
first. -/
theorem getModel_missing_model_errors :
    (∀ similar ctor avail, getModel similar ctor avail none =
      .error (.modelNotFound (providerDisplayName ctor))) ∧
    (∀ similar ctor avail o, o.model = "" → getModel similar ctor avail (some o) =
      .error (.modelNotFound (providerDisplayName ctor))) ∧
    (providerDisplayName "GoogleVertexAIProvider" = "GoogleVertexAI" ∧
     providerDisplayName "GoogleGenerativeLanguageProvider" = "GoogleGenerativeLanguage" ∧
     providerDisplayName "OpenAIProvider" = "OpenAI" ∧
     providerDisplayName "OpenRouterProvider" = "OpenRouter" ∧
     providerDisplayName "PerplexityProvider" = "Perplexity" ∧
     providerDisplayName "ModelBoxProvider" = "ModelBox" ∧
     providerDisplayName "AnthropicProvider" = "Anthropic") ∧
    (∀ (C : Type) similar apiKey kfe (h : Heap C) prompt tr,
      h.callerOptions.model = "" →
      (vertexExecutePromptS similar apiKey kfe h prompt tr).1 =
        .error (.modelNotFound (providerDisplayName "GoogleVertexAIProvider"))) ∧
    (∀ (C : Type) similar ctor (h : Heap C) resp, h.callerOptions.model = "" →
      (openAIBaseExecutePromptS similar ctor h resp).1 =
        .error (.modelNotFound (providerDisplayName ctor))) ∧
    (∀ (C : Type) similar (h : Heap C) resp, h.callerOptions.model = "" →
      (openRouterExecutePromptS similar h resp).1 =
        .error (.modelNotFound (providerDisplayName "OpenRouterProvider"))) ∧
    (∀ (C : Type) similar chunk (h : Heap C) prompt resps, h.callerOptions.model = "" →
      (openAIExecutePromptS similar chunk h prompt resps).1 =
        .error (.modelNotFound (providerDisplayName "OpenAIProvider"))) ∧
    (∀ (C : Type) similar sim (h : Heap C) tr, h.callerOptions.model = "" →
      (modelBoxExecutePromptS similar sim h tr).1 =
        .error (.modelNotFound (providerDisplayName "ModelBoxProvider"))) ∧
    (∀ (C : Type) similar (h : Heap C) resp, h.callerOptions.model = "" →
      (anthropicExecutePromptS similar h resp).1 =
        .error (.modelNotFound (providerDisplayName "AnthropicProvider"))) ∧
    (∀ (C : Type) similar key (h : Heap C) trs, h.callerOptions.model = "" →
      (perplexityExecutePromptS similar (some key) h trs).1 =
        .error (.modelNotFound (providerDisplayName "PerplexityProvider"))) ∧
    (∀ (C : Type) similar apiKey (h : Heap C) prompt tr,
      h.callerOptions.model = "" → tcTruthy h.callerOptions.tokenCount = false →
      (genLangExecutePromptS similar apiKey h prompt tr).1 =
        .error (.modelNotFound (providerDisplayName "GoogleGenerativeLanguageProvider"))) := by
  refine ⟨fun similar ctor avail => rfl,
    fun similar ctor avail o hm0 => getModel_empty_model similar ctor avail o hm0,
    ⟨rfl, rfl, rfl, rfl, rfl, rfl, rfl⟩, ?_, ?_, ?_, ?_, ?_, ?_, ?_, ?_⟩
  · intro C similar apiKey kfe h prompt tr hm0
    unfold vertexExecutePromptS
    dsimp only
    rw [getModel_empty_model similar _ h.availableModels h.callerOptions hm0]
  · intro C similar ctor h resp hm0
    unfold openAIBaseExecutePromptS
    rw [getModel_empty_model similar _ h.availableModels h.callerOptions hm0]
  · intro C similar h resp hm0
    unfold openRouterExecutePromptS
    rw [getModel_empty_model similar _ h.availableModels h.callerOptions hm0]
  · intro C similar chunk h prompt resps hm0
    unfold openAIExecutePromptS
    rw [getModel_empty_model similar _ h.availableModels h.callerOptions hm0]
  · intro C similar sim h tr hm0
    unfold modelBoxExecutePromptS
    dsimp only
    rw [getModel_empty_model similar _ h.availableModels h.callerOptions hm0]
  · intro C similar h resp hm0
    unfold anthropicExecutePromptS
    rw [getModel_empty_model similar _ h.availableModels h.callerOptions hm0]
  · intro C similar key h trs hm0
    unfold perplexityExecutePromptS
    dsimp only
    have hop : perplexityAttempt similar h (trs 1) =
        .error (.modelNotFound (providerDisplayName "PerplexityProvider")) := by
      unfold perplexityAttempt
      rw [getModel_empty_model similar _ h.availableModels h.callerOptions hm0]
    exact retry_first_stop _ shouldRetryPerplexity 5 1000 _ hop rfl
  · intro C similar apiKey h prompt tr hm0 htc
    unfold genLangExecutePromptS
    dsimp only
    have hat : applyTokenCount genLangHandleLargeTokenCount h.callerOptions =
        .ok h.callerOptions := by
      unfold applyTokenCount
      rw [htc]
      rfl
    rw [hat]
    dsimp only
    rw [getModel_empty_model similar _ h.availableModels h.callerOptions hm0]

/-- Witness for the amended C9 at concrete provider states. -/
theorem getModel_missing_model_errors_witness :
    getModel noSimilar "PerplexityProvider" none none =
      .error (.modelNotFound (providerDisplayName "PerplexityProvider")) ∧
    (anthropicExecutePromptS (C := Unit) noSimilar (heapOf none (mkOptions "" none))
        { content := [{ type := "text", text := "hello" }] }).1 =
      .error (.modelNotFound (providerDisplayName "AnthropicProvider")) ∧
    (vertexExecutePromptS (C := Unit) noSimilar (some "adc") false
        (heapOf (some ["gemini-2.0-flash"]) (mkOptions "" none)) "p"
        (fun _ m _ => echoGemini m)).1 =
      .error (.modelNotFound (providerDisplayName "GoogleVertexAIProvider")) :=
  ⟨getModel_missing_model_errors.1 noSimilar "PerplexityProvider" none,
   getModel_missing_model_errors.2.2.2.2.2.2.2.2.1 Unit noSimilar
     (heapOf none (mkOptions "" none))
     { content := [{ type := "text", text := "hello" }] } rfl,
   getModel_missing_model_errors.2.2.2.1 Unit noSimilar (some "adc") false
     (heapOf (some ["gemini-2.0-flash"]) (mkOptions "" none)) "p"
     (fun _ m _ => echoGemini m) rfl⟩

/-- Counterexample to C9 as stated: `GoogleGenerativeLanguageProvider` with
an empty `options.model` and a large `tokenCount` does not fail with a
`ModelNotFoundError` — token-count switching installs `gemini-2.0-pro-exp`
before model resolution runs, and the prompt succeeds. -/
theorem genlang_empty_model_token_switch :
    (genLangExecutePromptS (C := Unit) noSimilar (some "AIzaKey")
        (heapOf (some ["gemini-2.0-pro-exp"]) (mkOptions "" (some 1000000))) "p"
        (fun _ m _ => echoGemini m)).1 = .ok "url-model:gemini-2.0-pro-exp" := by decide

/-! Claim theorems: token-budget model switching. -/

/-- Claim C2 evaluated on the code: the token-count handlers return the
switch/error exactly as claimed, and `GoogleGenerativeLanguageProvider`
really sends the request to the switched model; but in
`GoogleVertexAIProvider.executePrompt` the request URL is built from the
`model` constant resolved before the switch, so with a token count of
1,000,000 the request still goes to the originally requested model — the
options copy carrying `gemini-2.0-pro-exp-02-05` is never read again.  The
responses below echo the model named in the request URL. -/
theorem vertex_token_switch_ignored :
    (∀ t, 800000 < t → t < 2000000 →
      vertexHandleLargeTokenCount t = { model := some "gemini-2.0-pro-exp-02-05", error := none } ∧
      genLangHandleLargeTokenCount t = { model := some "gemini-2.0-pro-exp", error := none }) ∧
    (∀ t, 2000000 ≤ t →
      (vertexHandleLargeTokenCount t).model = none ∧ (vertexHandleLargeTokenCount t).error ≠ none ∧
      (genLangHandleLargeTokenCount t).model = none ∧ (genLangHandleLargeTokenCount t).error ≠ none) ∧
    (∀ t, t ≤ 800000 →
      vertexHandleLargeTokenCount t = { model := none, error := none } ∧
      genLangHandleLargeTokenCount t = { model := none, error := none }) ∧
    (vertexExecutePromptS (C := Unit) noSimilar (some "adc") false
        (heapOf (some ["gemini-1.5-pro-002", "gemini-2.0-pro-exp-02-05"])
          (mkOptions "gemini-1.5-pro-002" (some 1000000))) "p"
        (fun _ m _ => echoGemini m)).1 = .ok "url-model:gemini-1.5-pro-002" ∧
    "url-model:gemini-1.5-pro-002" ≠ "url-model:gemini-2.0-pro-exp-02-05" ∧
    (genLangExecutePromptS (C := Unit) noSimilar (some "AIza2")
        (heapOf (some ["gemini-1.5-pro-002", "gemini-2.0-pro-exp"])
          (mkOptions "gemini-1.5-pro-002" (some 1000000))) "p"
        (fun _ m _ => echoGemini m)).1 = .ok "url-model:gemini-2.0-pro-exp" ∧
    (vertexExecutePromptS (C := Unit) noSimilar (some "adc") false
        (heapOf (some ["gemini-1.5-pro-002"]) (mkOptions "gemini-1.5-pro-002" (some 2000000))) "p"
        (fun _ m _ => echoGemini m)).1 =
      .error (.providerError ((vertexHandleLargeTokenCount 2000000).error.getD "")) ∧
    (genLangExecutePromptS (C := Unit) noSimilar (some "AIza2")
        (heapOf (some ["gemini-1.5-pro-002"]) (mkOptions "gemini-1.5-pro-002" (some 2000000))) "p"
        (fun _ m _ => echoGemini m)).1 =
      .error (.providerError ((genLangHandleLargeTokenCount 2000000).error.getD "")) ∧
    (vertexExecutePromptS (C := Unit) noSimilar (some "adc") false
        (heapOf (some ["gemini-1.5-pro-002"]) (mkOptions "gemini-1.5-pro-002" (some 800000))) "p"
        (fun _ m _ => echoGemini m)).1 = .ok "url-model:gemini-1.5-pro-002" ∧
    (genLangExecutePromptS (C := Unit) noSimilar (some "AIza2")
        (heapOf (some ["gemini-1.5-pro-002"]) (mkOptions "gemini-1.5-pro-002" (some 800000))) "p"
        (fun _ m _ => echoGemini m)).1 = .ok "url-model:gemini-1.5-pro-002" := by
  refine ⟨?_, ?_, ?_, by decide, by decide, by decide, by decide, by decide, by decide, by decide⟩
  · intro t h1 h2
    constructor
    · unfold vertexHandleLargeTokenCount
      rw [if_pos ⟨h1, h2⟩]
    · unfold genLangHandleLargeTokenCount
      rw [if_pos ⟨h1, h2⟩]
  · intro t ht
    have hno : ¬ (800000 < t ∧ t < 2000000) := by omega
    refine ⟨?_, ?_, ?_, ?_⟩
    · unfold vertexHandleLargeTokenCount
      rw [if_neg hno, if_pos ht]
    · unfold vertexHandleLargeTokenCount
      rw [if_neg hno, if_pos ht]
      simp
    · unfold genLangHandleLargeTokenCount
      rw [if_neg hno, if_pos ht]
    · unfold genLangHandleLargeTokenCount
      rw [if_neg hno, if_pos ht]
      simp
  · intro t ht
    have hno : ¬ (800000 < t ∧ t < 2000000) := by omega
    have hno2 : ¬ (2000000 ≤ t) := by omega
    constructor
    · unfold vertexHandleLargeTokenCount
      rw [if_neg hno, if_neg hno2]
    · unfold genLangHandleLargeTokenCount
      rw [if_neg hno, if_neg hno2]

/-- Witness grounding C2's universally quantified parts at concrete counts. -/
theorem vertex_token_switch_ignored_witness :
    vertexHandleLargeTokenCount 1000000 =
      { model := some "gemini-2.0-pro-exp-02-05", error := none } ∧
    genLangHandleLargeTokenCount 1000000 =
      { model := some "gemini-2.0-pro-exp", error := none } ∧
    (vertexHandleLargeTokenCount 2000000).model = none ∧
    vertexHandleLargeTokenCount 800000 = { model := none, error := none } :=
  ⟨(vertex_token_switch_ignored.1 1000000 (by decide) (by decide)).1,
   (vertex_token_switch_ignored.1 1000000 (by decide) (by decide)).2,
   (vertex_token_switch_ignored.2.1 2000000 (by decide)).1,
   (vertex_token_switch_ignored.2.2.1 800000 (by decide)).1⟩

/-! Claim theorems: retry and backoff. -/

/-- Counterexample to C3: the waits between attempts are 1000, 2000, 4000,
8000 ms — the increments double rather than stay constant, so the delay does
not grow linearly with the attempt number (attempt 3 would wait 3000 ms under
linear growth from a 1000 ms base, but waits 4000 ms). -/
theorem retry_delays_not_linear :
    (retryWithBackoff (fun _ => (Except.error (PErr.networkError "429") : Except PErr String))
        5 1000 (fun _ => true)).delays = [1000, 2000, 4000, 8000] ∧
    retryDelay 1000 3 - retryDelay 1000 2 ≠ retryDelay 1000 2 - retryDelay 1000 1 ∧
    ¬ (∀ a, 1 ≤ a → retryDelay 1000 a = 1000 * a) := by
  refine ⟨by decide, by decide, fun hlin => ?_⟩
  exact absurd (hlin 3 (by omega)) (by decide)

/-- Claim C3 (amended): the retry waits follow exponential backoff — the trace
of delays of any run is `retryDelay` applied to the attempt numbers, where
`retryDelay base a = base * 2 ^ (a - 1)` starts at the base delay and doubles
with each successive attempt. -/
theorem retry_delays_exponential (α : Type) (op : Nat → Except PErr α)
    (n d : Nat) (sr : PErr → Bool) (a : Nat) (ha : 1 ≤ a) :
    (retryWithBackoff op n d sr).delays =
      (List.range' 1 ((retryWithBackoff op n d sr).calls - 1)).map (retryDelay d) ∧
    retryDelay d 1 = d ∧
    retryDelay d (a + 1) = 2 * retryDelay d a := by
  refine ⟨retryLoop_delays_eq op sr d (n - 1) 1, by simp [retryDelay], ?_⟩
  obtain ⟨b, rfl⟩ : ∃ b, a = b + 1 := ⟨a - 1, by omega⟩
  show d * 2 ^ (b + 1 + 1 - 1) = 2 * (d * 2 ^ (b + 1 - 1))
  have h1 : b + 1 + 1 - 1 = b + 1 := by omega
  have h2 : b + 1 - 1 = b := by omega
  rw [h1, h2, pow_succ]
  ring

/-- Witness for the amended C3 on a concrete always-retry run. -/
theorem retry_delays_exponential_witness :
    (retryWithBackoff (fun _ => (Except.error (PErr.networkError "429") : Except PErr String))
        5 1000 shouldRetryGoogle).delays =
      (List.range' 1 ((retryWithBackoff
          (fun _ => (Except.error (PErr.networkError "429") : Except PErr String))
          5 1000 shouldRetryGoogle).calls - 1)).map (retryDelay 1000) ∧
    retryDelay 1000 1 = 1000 ∧
    retryDelay 1000 (2 + 1) = 2 * retryDelay 1000 2 :=
  retry_delays_exponential String
    (fun _ => (Except.error (PErr.networkError "429") : Except PErr String))
    5 1000 shouldRetryGoogle 2 (by omega)

/-- Claim C4: `retryWithBackoff` calls the operation at most `maxAttempts`
times; an error result is always the error of the last attempt made; a
non-retryable error is rethrown at once with no further attempts; when every
attempt fails retryably the final (`maxAttempts`-th) error is rethrown; and
the Google and Perplexity classifiers retry exactly the `NetworkError`s whose
lowercased message contains `429`/`resource exhausted` respectively
`429`/`rate limit` — every other error is never retried. -/
theorem retryWithBackoff_attempts_and_classifiers :
    (∀ (α : Type) (op : Nat → Except PErr α) (n d : Nat) (sr : PErr → Bool), 1 ≤ n →
      (retryWithBackoff op n d sr).calls ≤ n) ∧
    (∀ (α : Type) (op : Nat → Except PErr α) (n d : Nat) (sr : PErr → Bool) (e : PErr),
      (retryWithBackoff op n d sr).result = .error e →
      op (retryWithBackoff op n d sr).calls = .error e) ∧
    (∀ (α : Type) (op : Nat → Except PErr α) (n d : Nat) (sr : PErr → Bool) (k : Nat) (e : PErr),
      1 ≤ k → k ≤ n →
      (∀ j, 1 ≤ j → j < k → ∃ ej, op j = .error ej ∧ sr ej = true) →
      op k = .error e → sr e = false →
      (retryWithBackoff op n d sr).result = .error e ∧
      (retryWithBackoff op n d sr).calls = k) ∧
    (∀ (α : Type) (op : Nat → Except PErr α) (n d : Nat) (sr : PErr → Bool), 1 ≤ n →
      (∀ j, 1 ≤ j → j ≤ n → ∃ ej, op j = .error ej ∧ sr ej = true) →
      (retryWithBackoff op n d sr).result = op n ∧
      (retryWithBackoff op n d sr).calls = n) ∧
    (∀ e, shouldRetryGoogle e = true ↔ ∃ msg, e = .networkError msg ∧
      (strContains (jsToLower msg) "429" = true ∨
       strContains (jsToLower msg) "resource exhausted" = true)) ∧
    (∀ e, shouldRetryPerplexity e = true ↔ ∃ msg, e = .networkError msg ∧
      (strContains (jsToLower msg) "429" = true ∨
       strContains (jsToLower msg) "rate limit" = true)) := by
  refine ⟨?_, ?_, ?_, ?_, ?_, ?_⟩
  · intro α op n d sr hn
    have := retryLoop_calls_le op sr d (n - 1) 1
    unfold retryWithBackoff
    omega
  · intro α op n d sr e he
    have hp := retryLoop_calls_pos op sr d 1 (n - 1)
    have := retryLoop_result_last op sr d (n - 1) 1 e he
    unfold retryWithBackoff at *
    have harith : 1 + (retryLoop op sr d 1 (n - 1)).calls - 1 =
        (retryLoop op sr d 1 (n - 1)).calls := by omega
    rw [harith] at this
    exact this
  · intro α op n d sr k e hk1 hkn hpre hop hs
    have := retryLoop_run op sr d (n - 1) 1 k e hk1 (by omega)
      (fun j hj1 hj2 => hpre j hj1 (by omega))
      (by have : 1 + k - 1 = k := by omega
          rw [this]; exact hop)
      hs
    unfold retryWithBackoff
    rw [this]
    exact ⟨rfl, rfl⟩
  · intro α op n d sr hn hall
    have := retryLoop_allfail op sr d (n - 1) 1
      (fun j hj1 hj2 => hall j hj1 (by omega))
    unfold retryWithBackoff
    have h1 : 1 + (n - 1) = n := by omega
    rw [h1] at this
    exact ⟨this.1, by omega⟩
  · intro e
    cases e <;> simp [shouldRetryGoogle]
  · intro e
    cases e <;> simp [shouldRetryPerplexity]

/-- Witness for C4 on a concrete run: a non-retryable first error stops a
Google-classified retry immediately, and the classifiers at sample errors. -/
theorem retryWithBackoff_attempts_and_classifiers_witness :
    ((retryWithBackoff (fun _ => (Except.error (PErr.providerError "boom") : Except PErr String))
        5 1000 shouldRetryGoogle).result = .error (.providerError "boom") ∧
     (retryWithBackoff (fun _ => (Except.error (PErr.providerError "boom") : Except PErr String))
        5 1000 shouldRetryGoogle).calls = 1) ∧
    (retryWithBackoff (fun _ => (Except.error (PErr.networkError "HTTP 429") : Except PErr String))
        5 1000 shouldRetryGoogle).calls ≤ 5 ∧
    (shouldRetryGoogle (.networkError "Resource EXHAUSTED") = true ↔
      ∃ msg, (PErr.networkError "Resource EXHAUSTED") = .networkError msg ∧
        (strContains (jsToLower msg) "429" = true ∨
         strContains (jsToLower msg) "resource exhausted" = true)) :=
  ⟨retryWithBackoff_attempts_and_classifiers.2.2.1 String
      (fun _ => (Except.error (PErr.providerError "boom") : Except PErr String))
      5 1000 shouldRetryGoogle 1 (.providerError "boom") (by omega) (by omega)
      (fun j hj1 hj2 => absurd hj2 (by omega)) rfl rfl,
   retryWithBackoff_attempts_and_classifiers.1 String
      (fun _ => (Except.error (PErr.networkError "HTTP 429") : Except PErr String))
      5 1000 shouldRetryGoogle (by omega),
   retryWithBackoff_attempts_and_classifiers.2.2.2.2.1 (.networkError "Resource EXHAUSTED")⟩

/-! Lemmas for the citation formatting. -/

theorem lookup_enumFromWeb (chunks : List GeminiGroundingChunk) :
    ∀ n i, (((List.enumFrom n chunks).filterMap
        (fun p => p.2.web.map (fun w => (p.1, w)))).lookup i) =
      if n ≤ i then (chunks[i - n]?.bind (·.web)) else none := by
  induction chunks with
  | nil => intro n i; simp
  | cons c cs ih =>
    intro n i
    simp only [List.enumFrom, List.filterMap_cons]
    cases hw : c.web with
    | none =>
      simp only [Option.map_none']
      rw [ih (n + 1) i]
      by_cases hni : n ≤ i
      · by_cases hni2 : n + 1 ≤ i
        · rw [if_pos hni2, if_pos hni]
          have hidx : i - n = (i - (n + 1)) + 1 := by omega
          rw [hidx, List.getElem?_cons_succ]
        · have hin : i = n := by omega
          subst hin
          rw [if_neg hni2, if_pos hni]
          simp [hw]
      · rw [if_neg hni, if_neg (by omega)]
    | some w =>
      simp only [Option.map_some']
      by_cases hin : i = n
      · subst hin
        simp only [List.lookup, beq_self_eq_true]
        rw [if_pos (Nat.le_refl i)]
        simp [hw]
      · have hbeq : (i == n) = false := by simp [hin]
        simp only [List.lookup, hbeq]
        rw [ih (n + 1) i]
        by_cases hni : n ≤ i
        · have hni2 : n + 1 ≤ i := by omega
          rw [if_pos hni2, if_pos hni]
          have hidx : i - n = (i - (n + 1)) + 1 := by omega
          rw [hidx, List.getElem?_cons_succ]
        · rw [if_neg hni, if_neg (by omega)]

theorem citationSources_lookup (chunks : List GeminiGroundingChunk) (i : Nat) :
    (citationSources chunks).lookup i = chunks[i]?.bind (·.web) := by
  unfold citationSources
  rw [show chunks.enum = List.enumFrom 0 chunks from rfl, lookup_enumFromWeb chunks 0 i]
  simp

theorem supportMarkers_eq (g : GeminiGroundingMetadata) (idxs : List Nat) :
    supportMarkers (citationSources g.groundingChunks) idxs =
      String.join (idxs.filterMap (fun i =>
        if chunkHasWeb g i then some ("[" ++ toString (i + 1) ++ "]") else none)) := by
  unfold supportMarkers
  congr 1
  have hf : (fun i => if ((citationSources g.groundingChunks).lookup i).isSome then
        some ("[" ++ toString (i + 1) ++ "]") else none) =
      (fun i => if chunkHasWeb g i then some ("[" ++ toString (i + 1) ++ "]") else none) := by
    funext i
    rw [citationSources_lookup]
    rfl
  rw [hf]

theorem segmentsText_eq (g : GeminiGroundingMetadata) :
    segmentsText (citationSources g.groundingChunks) g.groundingSupports =
      segmentsTextSpec g := by
  unfold segmentsText segmentsTextSpec
  refine congrArg String.join (congrArg (fun f => List.map f g.groundingSupports) ?_)
  funext s
  dsimp only
  rw [supportMarkers_eq]

theorem mapCitationLine (g : GeminiGroundingMetadata) :
    (citationSources g.groundingChunks).map citationLine = citationsLinesSpec g := by
  unfold citationSources citationsLinesSpec citationLine
  rw [List.map_filterMap]
  congr 1
  funext p
  cases p.2.web <;> simp

theorem formatGrounded_eq_spec (content : Option String) (g : GeminiGroundingMetadata)
    (hsup : g.groundingSupports ≠ []) (hch : g.groundingChunks ≠ []) :
    formatGrounded content (some g) = some (groundedFormatSpec g) := by
  unfold formatGrounded groundedFormatSpec
  dsimp only
  rw [if_pos (show 0 < g.groundingSupports.length ∧ 0 < g.groundingChunks.length from
    ⟨List.length_pos.mpr hsup, List.length_pos.mpr hch⟩)]
  rw [segmentsText_eq g]
  by_cases hcs : citationSources g.groundingChunks = []
  · have hlines : citationsLinesSpec g = [] := by
      rw [← mapCitationLine g, hcs]
      rfl
    rw [if_neg (show ¬ citationSources g.groundingChunks ≠ [] from by simp [hcs])]
    rw [if_neg (show ¬ citationsLinesSpec g ≠ [] from by simp [hlines])]
    simp
  · have hlines : citationsLinesSpec g ≠ [] := by
      rw [← mapCitationLine g]
      simp [hcs]
    rw [if_pos (show citationSources g.groundingChunks ≠ [] from hcs)]
    rw [if_pos (show citationsLinesSpec g ≠ [] from hlines)]
    rw [← mapCitationLine g]

/-! Claim theorems: state preservation. -/

/-- Claim C7: no `executePrompt` mutates the provider's stored state — the
heap holding the provider's `config`, its `availableModels` set and the
caller's options object comes back unchanged from every provider's
`executePrompt`; in particular the token-budget switch of the Google
providers only rebinds a fresh `{ ...options }` copy. -/
theorem executePrompt_preserves_state :
    (∀ (C : Type) similar apiKey kfe (h : Heap C) prompt tr,
      (vertexExecutePromptS similar apiKey kfe h prompt tr).2 = h) ∧
    (∀ (C : Type) similar apiKey (h : Heap C) prompt tr,
      (genLangExecutePromptS similar apiKey h prompt tr).2 = h) ∧
    (∀ (C : Type) similar ctor (h : Heap C) resp,
      (openAIBaseExecutePromptS similar ctor h resp).2 = h) ∧
    (∀ (C : Type) similar (h : Heap C) resp,
      (openRouterExecutePromptS similar h resp).2 = h) ∧
    (∀ (C : Type) similar chunk (h : Heap C) prompt resps,
      (openAIExecutePromptS similar chunk h prompt resps).2 = h) ∧
    (∀ (C : Type) similar apiKey (h : Heap C) trs,
      (perplexityExecutePromptS similar apiKey h trs).2 = h) ∧
    (∀ (C : Type) similar sim (h : Heap C) tr,
      (modelBoxExecutePromptS similar sim h tr).2 = h) ∧
    (∀ (C : Type) similar (h : Heap C) resp,
      (anthropicExecutePromptS similar h resp).2 = h) := by
  refine ⟨?_, ?_, ?_, ?_, ?_, ?_, ?_, ?_⟩
  · intro C similar apiKey kfe h prompt tr
    unfold vertexExecutePromptS
    dsimp only
    cases getModel similar "GoogleVertexAIProvider" h.availableModels (some h.callerOptions) with
    | error e => rfl
    | ok model =>
      cases applyTokenCount vertexHandleLargeTokenCount h.callerOptions with
      | error e => rfl
      | ok opts2 =>
        cases h.availableModels with
        | none => rfl
        | some avail =>
          dsimp only
          split <;> rfl
  · intro C similar apiKey h prompt tr
    unfold genLangExecutePromptS
    dsimp only
    cases applyTokenCount genLangHandleLargeTokenCount h.callerOptions with
    | error e => rfl
    | ok opts2 =>
      dsimp only
      cases getModel similar "GoogleGenerativeLanguageProvider" h.availableModels (some opts2) with
      | error e => rfl
      | ok model => rfl
  · intro C similar ctor h resp
    unfold openAIBaseExecutePromptS
    cases getModel similar ctor h.availableModels (some h.callerOptions) <;> rfl
  · intro C similar h resp
    unfold openRouterExecutePromptS
    cases getModel similar "OpenRouterProvider" h.availableModels (some h.callerOptions) <;> rfl
  · intro C similar chunk h prompt resps
    unfold openAIExecutePromptS
    cases getModel similar "OpenAIProvider" h.availableModels (some h.callerOptions) with
    | error e => rfl
    | ok model =>
      cases openAIChunkLoop resps 0 (chunk prompt 1048576) with
      | error e => rfl
      | ok combined =>
        dsimp only
        split <;> rfl
  · intro C similar apiKey h trs
    unfold perplexityExecutePromptS
    cases apiKey <;> rfl
  · intro C similar sim h tr
    unfold modelBoxExecutePromptS
    cases getModel similar "ModelBoxProvider" h.availableModels (some h.callerOptions) <;> rfl
  · intro C similar h resp
    unfold anthropicExecutePromptS
    cases getModel similar "AnthropicProvider" h.availableModels (some h.callerOptions) <;> rfl

/-! Claim theorems: citation formatting. -/

theorem vertexAttempt_grounded (prompt : String) (opts : ModelOptions) (model : String)
    (resp : GeminiResponse) (t : String) (g : GeminiGroundingMetadata)
    (hok : resp.ok = true) (ht : geminiText resp = some t) (hg : geminiGrounding resp = some g)
    (hsup : g.groundingSupports ≠ []) (hch : g.groundingChunks ≠ [])
    (hne : groundedFormatSpec g ≠ "") :
    vertexAttempt (some "adc") false prompt opts model (fun _ _ => resp) =
      .ok (groundedFormatSpec g) := by
  unfold vertexAttempt vertexAuth vertexRespCheck
  dsimp only
  rw [if_neg (show ¬ jsEndsWith "adc" ".json" = true from by decide)]
  rw [if_pos (show jsToLower "adc" = "adc" from by decide)]
  dsimp only
  simp only [hok, not_true_eq_false, Bool.not_true, reduceIte]
  rw [ht, hg, formatGrounded_eq_spec (some t) g hsup hch]
  dsimp only
  rw [if_neg hne]
  rfl

theorem genLangAttempt_grounded (key prompt : String) (opts : ModelOptions) (model : String)
    (resp : GeminiResponse) (t : String) (g : GeminiGroundingMetadata)
    (hkj : jsEndsWith key ".json" = false) (hka : jsToLower key ≠ "adc")
    (hok : resp.ok = true) (ht : geminiText resp = some t) (hg : geminiGrounding resp = some g)
    (hsup : g.groundingSupports ≠ []) (hch : g.groundingChunks ≠ [])
    (hne : groundedFormatSpec g ≠ "") :
    genLangAttempt (some key) prompt opts model (fun _ _ => resp) =
      .ok (groundedFormatSpec g) := by
  unfold genLangAttempt genLangAPIKeyCheck genLangRespCheck
  dsimp only
  rw [if_neg (show ¬ (jsEndsWith key ".json" || decide (jsToLower key = "adc")) = true from by
    simp [hkj, hka])]
  dsimp only
  simp only [hok, not_true_eq_false, Bool.not_true, reduceIte]
  rw [ht, hg, formatGrounded_eq_spec (some t) g hsup hch]
  dsimp only
  rw [if_neg hne]
  rfl

/-- Claim C5: when the Google response carries grounding metadata with a
non-empty support list and a non-empty chunk list, `executePrompt` of both
Google providers returns the reformatted body described by the claim — the
`Citations:` list mapping `[i+1]` to chunk `i`'s web uri and optional title
for every chunk with a web field, then the web-search-query list when
present, then each support segment's text suffixed by the markers of its
web-sourced chunk indices, all trimmed — instead of the raw candidate text;
with grounding absent or either list empty the raw text passes through
unchanged. -/
theorem google_grounding_citation_format
    (C : Type) (similar : String → List String → List String) (h : Heap C)
    (l : List String) (prompt key : String) (resp : GeminiResponse)
    (t : String) (g : GeminiGroundingMetadata)
    (hl : h.availableModels = some l)
    (hm : h.callerOptions.model ≠ "")
    (hmem : l.contains h.callerOptions.model = true)
    (htc : h.callerOptions.tokenCount = none)
    (hok : resp.ok = true)
    (ht : geminiText resp = some t)
    (hg : geminiGrounding resp = some g)
    (hsup : g.groundingSupports ≠ [])
    (hch : g.groundingChunks ≠ [])
    (hne : groundedFormatSpec g ≠ "")
    (hkj : jsEndsWith key ".json" = false)
    (hka : jsToLower key ≠ "adc") :
    (vertexExecutePromptS similar (some "adc") false h prompt (fun _ _ _ => resp)).1 =
      .ok (groundedFormatSpec g) ∧
    (genLangExecutePromptS similar (some key) h prompt (fun _ _ _ => resp)).1 =
      .ok (groundedFormatSpec g) ∧
    (∀ content (g2 : GeminiGroundingMetadata),
      g2.groundingSupports = [] ∨ g2.groundingChunks = [] →
      formatGrounded content (some g2) = content) ∧
    (∀ content, formatGrounded content none = content) := by
  have hat : ∀ handle, applyTokenCount handle h.callerOptions = .ok h.callerOptions := by
    intro handle
    unfold applyTokenCount
    rw [htc]
    rfl
  refine ⟨?_, ?_, ?_, fun content => rfl⟩
  · unfold vertexExecutePromptS
    dsimp only
    rw [hl, getModel_exact similar _ l h.callerOptions hm hmem, hat vertexHandleLargeTokenCount]
    dsimp only
    rw [if_neg (show ¬ ¬ l.contains h.callerOptions.model = true from not_not_intro hmem)]
    exact retry_first_ok _ shouldRetryGoogle 5 1000 _
      (vertexAttempt_grounded prompt h.callerOptions h.callerOptions.model resp t g
        hok ht hg hsup hch hne)
  · unfold genLangExecutePromptS
    dsimp only
    rw [hat genLangHandleLargeTokenCount]
    dsimp only
    rw [hl, getModel_exact similar _ l h.callerOptions hm hmem]
    exact retry_first_ok _ shouldRetryGoogle 5 1000 _
      (genLangAttempt_grounded key prompt h.callerOptions h.callerOptions.model resp t g
        hkj hka hok ht hg hsup hch hne)
  · intro content g2 hdisj
    unfold formatGrounded
    dsimp only
    rw [if_neg (show ¬ (0 < g2.groundingSupports.length ∧ 0 < g2.groundingChunks.length) from by
      rcases hdisj with h2 | h2 <;> simp [h2])]

/-- Witness for C5 on a concrete grounded response. -/
theorem google_grounding_citation_format_witness :
    (vertexExecutePromptS (C := Unit) noSimilar (some "adc") false
        (heapOf (some ["gemini-2.0-flash"]) (mkOptions "gemini-2.0-flash" none)) "p"
        (fun _ _ _ => groundedGemini)).1 = .ok (groundedFormatSpec groundedMeta) ∧
    (genLangExecutePromptS (C := Unit) noSimilar (some "AIza")
        (heapOf (some ["gemini-2.0-flash"]) (mkOptions "gemini-2.0-flash" none)) "p"
        (fun _ _ _ => groundedGemini)).1 = .ok (groundedFormatSpec groundedMeta) ∧
    (∀ content (g2 : GeminiGroundingMetadata),
      g2.groundingSupports = [] ∨ g2.groundingChunks = [] →
      formatGrounded content (some g2) = content) ∧
    (∀ content, formatGrounded content none = content) :=
  google_grounding_citation_format Unit noSimilar
    (heapOf (some ["gemini-2.0-flash"]) (mkOptions "gemini-2.0-flash" none))
    ["gemini-2.0-flash"] "p" "AIza" groundedGemini "raw text" groundedMeta
    rfl (by decide) (by decide) rfl rfl rfl rfl (by decide) (by decide) (by decide)
    (by decide) (by decide)

/-! Claim theorems: empty responses. -/

theorem jsCatchWrap_ok {α : Type} {r : Except PErr α} {w : String} {v : α}
    (h : jsCatchWrap r w = .ok v) : r = .ok v := by
  cases r with
  | ok a => exact h
  | error e =>
    unfold jsCatchWrap at h
    dsimp only at h
    split at h <;> simp at h

theorem optEmptyCheck_ok {m1 m2 : String} {fc : Option String} {s : String}
    (h : (match fc with
          | none => Except.error (PErr.providerError m1)
          | some str =>
            if str = "" then Except.error (PErr.providerError m2)
            else Except.ok str) = .ok s) : s ≠ "" := by
  cases fc with
  | none => simp at h
  | some str =>
    dsimp only at h
    by_cases hstr : str = ""
    · rw [if_pos hstr] at h; simp at h
    · rw [if_neg hstr] at h
      cases h
      exact hstr

theorem vertexRespCheck_ok_nonempty (resp : GeminiResponse) (s : String)
    (h : vertexRespCheck resp = .ok s) : s ≠ "" := by
  unfold vertexRespCheck at h
  split at h
  · simp at h
  · exact optEmptyCheck_ok h

theorem genLangRespCheck_ok_nonempty (resp : GeminiResponse) (s : String)
    (h : genLangRespCheck resp = .ok s) : s ≠ "" := by
  unfold genLangRespCheck at h
  split at h
  · simp at h
  · exact optEmptyCheck_ok h

theorem pplxRespCheck_ok_nonempty (resp : PplxResponse) (s : String)
    (h : pplxRespCheck resp = .ok s) : s ≠ "" := by
  unfold pplxRespCheck at h
  split at h
  · simp at h
  · exact optEmptyCheck_ok h

theorem modelBoxExecuteWithModel_ok_nonempty (resp : ChatResponse) (s : String)
    (h : modelBoxExecuteWithModel resp = .ok s) : s ≠ "" := by
  unfold modelBoxExecuteWithModel at h
  cases hh : resp.choices.head? with
  | none => rw [hh] at h; simp at h
  | some ch =>
    rw [hh] at h
    dsimp only at h
    cases hc : ch.message.content with
    | none => rw [hc] at h; simp at h
    | some str =>
      rw [hc] at h
      dsimp only at h
      by_cases hstr : str = ""
      · rw [if_pos hstr] at h; simp at h
      · rw [if_neg hstr] at h
        cases h
        exact hstr

theorem vertexAttempt_ok_nonempty (apiKey : Option String) (kfe : Bool)
    (prompt : String) (opts : ModelOptions) (model : String)
    (tr2 : String → GoogleVertexAIRequestBody → GeminiResponse) (s : String)
    (h : vertexAttempt apiKey kfe prompt opts model tr2 = .ok s) : s ≠ "" := by
  unfold vertexAttempt at h
  dsimp only at h
  have hin := jsCatchWrap_ok h
  cases ha : vertexAuth apiKey kfe with
  | error e => rw [ha] at hin; simp at hin
  | ok u =>
    rw [ha] at hin
    exact vertexRespCheck_ok_nonempty _ s hin

theorem genLangAttempt_ok_nonempty (apiKey : Option String)
    (prompt : String) (opts : ModelOptions) (model : String)
    (tr2 : String → GoogleGenerativeLanguageRequestBody → GeminiResponse) (s : String)
    (h : genLangAttempt apiKey prompt opts model tr2 = .ok s) : s ≠ "" := by
  unfold genLangAttempt at h
  dsimp only at h
  have hin := jsCatchWrap_ok h
  cases ha : genLangAPIKeyCheck apiKey with
  | error e => rw [ha] at hin; simp at hin
  | ok u =>
    rw [ha] at hin
    exact genLangRespCheck_ok_nonempty _ s hin

theorem perplexityAttempt_ok_nonempty (C : Type)
    (similar : String → List String → List String) (h : Heap C)
    (resp : PplxResponse) (s : String)
    (heq : perplexityAttempt similar h resp = .ok s) : s ≠ "" := by
  unfold perplexityAttempt at heq
  cases hg : getModel similar "PerplexityProvider" h.availableModels (some h.callerOptions) with
  | error e => rw [hg] at heq; simp at heq
  | ok c =>
    rw [hg] at heq
    dsimp only at heq
    exact pplxRespCheck_ok_nonempty resp s (jsCatchWrap_ok heq)

theorem openAIBase_ok_nonempty (C : Type) (similar : String → List String → List String)
    (ctor : String) (h : Heap C) (resp : ChatResponse) (s : String)
    (heq : (openAIBaseExecutePromptS similar ctor h resp).1 = .ok s) : s ≠ "" := by
  unfold openAIBaseExecutePromptS at heq
  cases hg : getModel similar ctor h.availableModels (some h.callerOptions) with
  | error e => rw [hg] at heq; simp at heq
  | ok c =>
    rw [hg] at heq
    dsimp only at heq
    have hin := jsCatchWrap_ok heq
    cases hh : resp.choices.head? with
    | none => rw [hh] at hin; simp at hin
    | some ch =>
      rw [hh] at hin
      dsimp only at hin
      cases hc : ch.message.content with
      | none => rw [hc] at hin; simp at hin
      | some str =>
        rw [hc] at hin
        dsimp only at hin
        by_cases hstr : str = ""
        · rw [if_pos hstr] at hin; simp at hin
        · rw [if_neg hstr] at hin
          cases hin
          exact hstr

theorem openRouter_ok_nonempty (C : Type) (similar : String → List String → List String)
    (h : Heap C) (resp : ChatResponse) (s : String)
    (heq : (openRouterExecutePromptS similar h resp).1 = .ok s) : s ≠ "" := by
  unfold openRouterExecutePromptS at heq
  cases hg : getModel similar "OpenRouterProvider" h.availableModels (some h.callerOptions) with
  | error e => rw [hg] at heq; simp at heq
  | ok c =>
    rw [hg] at heq
    dsimp only at heq
    have hin := jsCatchWrap_ok heq
    cases hh : resp.choices.head? with
    | none => rw [hh] at hin; simp at hin
    | some ch =>
      rw [hh] at hin
      dsimp only at hin
      cases hc : ch.message.content with
      | none => rw [hc] at hin; simp at hin
      | some str =>
        rw [hc] at hin
        dsimp only at hin
        by_cases hstr : str = ""
        · rw [if_pos hstr] at hin; simp at hin
        · rw [if_neg hstr] at hin
          cases hin
          exact hstr

theorem openAI_ok_nonempty (C : Type) (similar : String → List String → List String)
    (chunk : String → Nat → List String) (h : Heap C) (prompt : String)
    (resps : Nat → ChatResponse) (s : String)
    (heq : (openAIExecutePromptS similar chunk h prompt resps).1 = .ok s) : s ≠ "" := by
  unfold openAIExecutePromptS at heq
  cases hg : getModel similar "OpenAIProvider" h.availableModels (some h.callerOptions) with
  | error e => rw [hg] at heq; simp at heq
  | ok c =>
    rw [hg] at heq
    dsimp only at heq
    cases hc : openAIChunkLoop resps 0 (chunk prompt 1048576) with
    | error e => rw [hc] at heq; simp at heq
    | ok combined =>
      rw [hc] at heq
      dsimp only at heq
      by_cases htr : jsTrim combined = ""
      · rw [if_pos htr] at heq; simp at heq
      · rw [if_neg htr] at heq
        dsimp only at heq
        cases heq
        exact htr

theorem vertex_ok_nonempty (C : Type) (similar : String → List String → List String)
    (apiKey : Option String) (kfe : Bool) (h : Heap C) (prompt : String)
    (tr : Nat → String → GoogleVertexAIRequestBody → GeminiResponse) (s : String)
    (heq : (vertexExecutePromptS similar apiKey kfe h prompt tr).1 = .ok s) : s ≠ "" := by
  unfold vertexExecutePromptS at heq
  dsimp only at heq
  cases hg : getModel similar "GoogleVertexAIProvider" h.availableModels (some h.callerOptions) with
  | error e => rw [hg] at heq; simp at heq
  | ok model =>
    rw [hg] at heq
    dsimp only at heq
    cases hat : applyTokenCount vertexHandleLargeTokenCount h.callerOptions with
    | error e => rw [hat] at heq; simp at heq
    | ok opts2 =>
      rw [hat] at heq
      dsimp only at heq
      cases hav : h.availableModels with
      | none => rw [hav] at heq; simp at heq
      | some avail =>
        rw [hav] at heq
        dsimp only at heq
        split at heq
        · simp at heq
        · dsimp only at heq
          obtain ⟨i, hop⟩ := retry_ok_exists _ shouldRetryGoogle 1000 (5 - 1) 1 s heq
          exact vertexAttempt_ok_nonempty apiKey kfe prompt opts2 model (tr i) s hop

theorem genLang_ok_nonempty (C : Type) (similar : String → List String → List String)
    (apiKey : Option String) (h : Heap C) (prompt : String)
    (tr : Nat → String → GoogleGenerativeLanguageRequestBody → GeminiResponse) (s : String)
    (heq : (genLangExecutePromptS similar apiKey h prompt tr).1 = .ok s) : s ≠ "" := by
  unfold genLangExecutePromptS at heq
  dsimp only at heq
  cases hat : applyTokenCount genLangHandleLargeTokenCount h.callerOptions with
  | error e => rw [hat] at heq; simp at heq
  | ok opts2 =>
    rw [hat] at heq
    dsimp only at heq
    cases hg : getModel similar "GoogleGenerativeLanguageProvider" h.availableModels (some opts2) with
    | error e => rw [hg] at heq; simp at heq
    | ok model =>
      rw [hg] at heq
      dsimp only at heq
      obtain ⟨i, hop⟩ := retry_ok_exists _ shouldRetryGoogle 1000 (5 - 1) 1 s heq
      exact genLangAttempt_ok_nonempty apiKey prompt opts2 model (tr i) s hop

theorem perplexity_ok_nonempty (C : Type) (similar : String → List String → List String)
    (apiKey : Option String) (h : Heap C) (trs : Nat → PplxResponse) (s : String)
    (heq : (perplexityExecutePromptS similar apiKey h trs).1 = .ok s) : s ≠ "" := by
  unfold perplexityExecutePromptS at heq
  cases apiKey with
  | none => simp at heq
  | some k =>
    dsimp only at heq
    obtain ⟨i, hop⟩ := retry_ok_exists _ shouldRetryPerplexity 1000 (5 - 1) 1 s heq
    exact perplexityAttempt_ok_nonempty C similar h (trs i) s hop

theorem modelBox_ok_nonempty (C : Type) (similar : String → List String → List String)
    (sim : String → String → Rat) (h : Heap C) (tr : String → ChatResponse) (s : String)
    (heq : (modelBoxExecutePromptS similar sim h tr).1 = .ok s) : s ≠ "" := by
  unfold modelBoxExecutePromptS at heq
  cases hg : getModel similar "ModelBoxProvider" h.availableModels (some h.callerOptions) with
  | error e => rw [hg] at heq; simp at heq
  | ok model =>
    rw [hg] at heq
    dsimp only at heq
    have hin := jsCatchWrap_ok heq
    cases hav : h.availableModels with
    | none => rw [hav] at hin; simp at hin
    | some avail =>
      rw [hav] at hin
      dsimp only at hin
      split at hin
      · exact modelBoxExecuteWithModel_ok_nonempty _ s hin
      · cases hf : avail.find? (fun m =>
            (jsSplitSlash m).length == 2 && (jsSplitSlash m)[1]? == some (stripNS model)) with
        | some m2 => rw [hf] at hin; exact modelBoxExecuteWithModel_ok_nonempty _ s hin
        | none =>
          rw [hf] at hin
          dsimp only at hin
          cases hmm : modelBoxMatching avail model (stripNS model) with
          | nil => rw [hmm] at hin; simp at hin
          | cons m2 rest => rw [hmm] at hin; exact modelBoxExecuteWithModel_ok_nonempty _ s hin

theorem anthropic_ok_text (C : Type) (similar : String → List String → List String)
    (h : Heap C) (resp : AnthropicResponse) (s : String)
    (heq : (anthropicExecutePromptS similar h resp).1 = .ok s) :
    ∃ b, resp.content.head? = some b ∧ b.type = "text" ∧ s = b.text := by
  unfold anthropicExecutePromptS at heq
  cases hg : getModel similar "AnthropicProvider" h.availableModels (some h.callerOptions) with
  | error e => rw [hg] at heq; simp at heq
  | ok c =>
    rw [hg] at heq
    dsimp only at heq
    have hin := jsCatchWrap_ok heq
    cases hh : resp.content.head? with
    | none => rw [hh] at hin; simp at hin
    | some b =>
      rw [hh] at hin
      dsimp only at hin
      by_cases hty : b.type ≠ "text"
      · rw [if_pos hty] at hin; simp at hin
      · rw [if_neg hty] at hin
        cases hin
        exact ⟨b, rfl, not_not.mp hty, rfl⟩

theorem anthropic_invalid_block (C : Type) (similar : String → List String → List String)
    (h : Heap C) (resp : AnthropicResponse) (c : String)
    (hg : getModel similar "AnthropicProvider" h.availableModels (some h.callerOptions) = .ok c)
    (hbad : resp.content.head? = none ∨ ∃ b, resp.content.head? = some b ∧ b.type ≠ "text") :
    (anthropicExecutePromptS similar h resp).1 =
      .error (.providerError "Anthropic returned an invalid response") := by
  unfold anthropicExecutePromptS
  rw [hg]
  dsimp only
  rcases hbad with hb | ⟨b, hb, hty⟩
  · rw [hb]
    rfl
  · rw [hb]
    dsimp only
    rw [if_pos hty]
    rfl

theorem openAIBase_empty_content (C : Type) (similar : String → List String → List String)
    (ctor : String) (h : Heap C) (resp : ChatResponse) (c : String)
    (hg : getModel similar ctor h.availableModels (some h.callerOptions) = .ok c)
    (ch : ChatChoice) (rest : List ChatChoice) (hch : resp.choices = ch :: rest)
    (hc : ch.message.content = none ∨ ch.message.content = some "") :
    (openAIBaseExecutePromptS similar ctor h resp).1 =
      .error (.providerError (ctor ++ " returned an empty response")) := by
  unfold openAIBaseExecutePromptS
  rw [hg]
  dsimp only
  rw [hch]
  simp only [List.head?_cons]
  rcases hc with hc | hc
  · rw [hc]
    rfl
  · rw [hc]
    dsimp only
    rw [if_pos rfl]
    rfl

/-- Claim C8 (amended): for every provider except Anthropic, `executePrompt`
never resolves to an empty string — a missing or empty content yields a
thrown `ProviderError` reporting an empty response instead of a return;
`AnthropicProvider` rejects a missing or non-text first content block with
an "invalid response" `ProviderError` but returns the text of a text block
unchecked, so an empty text block makes it resolve to the empty string. -/
theorem executePrompt_nonempty :
    (∀ (C : Type) similar ctor (h : Heap C) resp s,
      (openAIBaseExecutePromptS similar ctor h resp).1 = .ok s → s ≠ "") ∧
    (∀ (C : Type) similar (h : Heap C) resp s,
      (openRouterExecutePromptS similar h resp).1 = .ok s → s ≠ "") ∧
    (∀ (C : Type) similar chunk (h : Heap C) prompt resps s,
      (openAIExecutePromptS similar chunk h prompt resps).1 = .ok s → s ≠ "") ∧
    (∀ (C : Type) similar apiKey kfe (h : Heap C) prompt tr s,
      (vertexExecutePromptS similar apiKey kfe h prompt tr).1 = .ok s → s ≠ "") ∧
    (∀ (C : Type) similar apiKey (h : Heap C) prompt tr s,
      (genLangExecutePromptS similar apiKey h prompt tr).1 = .ok s → s ≠ "") ∧
    (∀ (C : Type) similar apiKey (h : Heap C) trs s,
      (perplexityExecutePromptS similar apiKey h trs).1 = .ok s → s ≠ "") ∧
    (∀ (C : Type) similar sim (h : Heap C) tr s,
      (modelBoxExecutePromptS similar sim h tr).1 = .ok s → s ≠ "") ∧
    (∀ (C : Type) similar ctor (h : Heap C) resp c ch rest,
      getModel similar ctor h.availableModels (some h.callerOptions) = .ok c →
      resp.choices = ch :: rest →
      ch.message.content = none ∨ ch.message.content = some "" →
      (openAIBaseExecutePromptS similar ctor h resp).1 =
        .error (.providerError (ctor ++ " returned an empty response"))) ∧
    (∀ (C : Type) similar (h : Heap C) resp s,
      (anthropicExecutePromptS similar h resp).1 = .ok s →
      ∃ b, resp.content.head? = some b ∧ b.type = "text" ∧ s = b.text) ∧
    (∀ (C : Type) similar (h : Heap C) resp c,
      getModel similar "AnthropicProvider" h.availableModels (some h.callerOptions) = .ok c →
      resp.content.head? = none ∨ (∃ b, resp.content.head? = some b ∧ b.type ≠ "text") →
      (anthropicExecutePromptS similar h resp).1 =
        .error (.providerError "Anthropic returned an invalid response")) :=
  ⟨openAIBase_ok_nonempty, openRouter_ok_nonempty, openAI_ok_nonempty,
   vertex_ok_nonempty, genLang_ok_nonempty, perplexity_ok_nonempty,
   modelBox_ok_nonempty,
   fun C similar ctor h resp c ch rest hg hch hc =>
     openAIBase_empty_content C similar ctor h resp c hg ch rest hch hc,
   anthropic_ok_text,
   fun C similar h resp c hg hbad => anthropic_invalid_block C similar h resp c hg hbad⟩

/-- Witness for the amended C8 at concrete responses. -/
theorem executePrompt_nonempty_witness :
    "hi" ≠ "" ∧
    ∃ b, ({ content := [{ type := "text", text := "hello" }] } :
        AnthropicResponse).content.head? = some b ∧ b.type = "text" ∧ "hello" = b.text :=
  ⟨executePrompt_nonempty.1 Unit noSimilar "OpenAIProvider"
      (heapOf none (mkOptions "gpt-4" none))
      { choices := [{ message := { content := some "hi" } }] } "hi" (by decide),
   executePrompt_nonempty.2.2.2.2.2.2.2.2.1 Unit noSimilar
      (heapOf none (mkOptions "claude-3" none))
      { content := [{ type := "text", text := "hello" }] } "hello" (by decide)⟩

/-- Counterexample to C8 as stated: an Anthropic response whose first block
is a text block with empty text makes `executePrompt` resolve to the empty
string instead of throwing. -/
theorem anthropic_empty_text_block :
    (anthropicExecutePromptS (C := Unit) noSimilar (heapOf none (mkOptions "claude-3" none))
        { content := [{ type := "text", text := "" }] }).1 = .ok "" := by decide

/-! Claim theorems: web-search support predicates. -/

/-- Claim C10: `supportsWebSearch` is a pure predicate on the (resolved)
model name — Perplexity accepts exactly names starting with `sonar`;
Vertex AI and ModelBox accept a found model exactly when its name without a
provider namespace contains `sonar`, `online` or `gemini`; OpenAI,
OpenRouter and Anthropic always answer `supported: false` with an error
message. -/
theorem supportsWebSearch_predicates :
    (∀ name, (perplexitySupportsWebSearch name).supported = jsStartsWith name "sonar") ∧
    (∀ similar (l : List String) name, l.contains (stripNS name) = true →
      (vertexSupportsWebSearch similar (some l) name).supported =
        isWebSearchSupportedModelOnModelBox (stripNS name)) ∧
    (∀ sim (l : List String) name m rest,
      modelBoxMatching l name (stripNS name) = m :: rest →
      (modelBoxSupportsWebSearch sim (some l) name).supported =
        isWebSearchSupportedModelOnModelBox m) ∧
    (∀ m, isWebSearchSupportedModelOnModelBox m =
      (strContains (stripNS m) "sonar" || strContains (stripNS m) "online" ||
       strContains (stripNS m) "gemini")) ∧
    (∀ name, (openAISupportsWebSearch name).supported = false ∧
      (openAISupportsWebSearch name).error.isSome = true) ∧
    (∀ name, (openRouterSupportsWebSearch name).supported = false ∧
      (openRouterSupportsWebSearch name).error.isSome = true) ∧
    (∀ name, (anthropicSupportsWebSearch name).supported = false ∧
      (anthropicSupportsWebSearch name).error.isSome = true) := by
  refine ⟨?_, ?_, ?_, fun m => rfl, fun name => ⟨rfl, rfl⟩, fun name => ⟨rfl, rfl⟩,
    fun name => ⟨rfl, rfl⟩⟩
  · intro name
    unfold perplexitySupportsWebSearch
    by_cases hs : jsStartsWith name "sonar" = true
    · rw [if_pos hs, hs]
    · rw [if_neg hs]
      simp at hs
      rw [hs]
  · intro similar l name hc
    unfold vertexSupportsWebSearch
    dsimp only
    rw [if_neg (not_not_intro hc)]
    by_cases hw : isWebSearchSupportedModelOnModelBox (stripNS name) = true
    · rw [if_pos hw, hw]
    · rw [if_neg hw]
      simp at hw
      rw [hw]
  · intro sim l name m rest hmm
    unfold modelBoxSupportsWebSearch
    dsimp only
    rw [hmm]
    dsimp only
    by_cases hw : isWebSearchSupportedModelOnModelBox m = true
    · rw [if_pos hw, hw]
    · rw [if_neg hw]
      simp at hw
      rw [hw]

/-- Witness for C10 at concrete model names. -/
theorem supportsWebSearch_predicates_witness :
    (vertexSupportsWebSearch noSimilar (some ["gemini-2.0-flash"]) "gemini-2.0-flash").supported =
      isWebSearchSupportedModelOnModelBox (stripNS "gemini-2.0-flash") ∧
    (modelBoxSupportsWebSearch (fun _ _ => 0) (some ["openai/gpt-4"]) "gpt-4").supported =
      isWebSearchSupportedModelOnModelBox "openai/gpt-4" ∧
    (perplexitySupportsWebSearch "sonar-pro").supported = jsStartsWith "sonar-pro" "sonar" :=
  ⟨supportsWebSearch_predicates.2.1 noSimilar ["gemini-2.0-flash"] "gemini-2.0-flash" (by decide),
   supportsWebSearch_predicates.2.2.1 (fun _ _ => 0) ["openai/gpt-4"] "gpt-4" "openai/gpt-4" []
     (by decide),
   supportsWebSearch_predicates.1 "sonar-pro"⟩

end CursorTools
